import Mathlib

/-!
Shallow embedding of the per-device, per-line Shift Accumulator Engine of the
celima-iot MQTT bridge, translated from the newest revision of
`MessageProcessor.cpp` (the revision that keeps per-line state maps in every
processor) together with the `CalidadProcessor` of `src/src/MessageProcessor.cpp`
(which keeps process-global quality buckets).

Modelling conventions:
* C++ machine integers become `Nat` with explicit reduction: `uint16_t` values
  are kept `< 2^16` by the masking casts, `uint32_t` accumulators are updated
  modulo `2^32`, `uint64_t` accumulators modulo `2^64`.
* The C++ `double` accumulators for deci-second time signals (sums of
  `delta * 0.1`) are modelled as the exact count of accumulated deci-second
  ticks (`acc_..._ds : Nat`); the published whole-second value is the tick
  count divided by 10.  Floating point is not modelled.
* A JSON message becomes a record of `Option Int` fields: `none` models a
  missing key, mirroring `jsonu::get_opt<int>(msg, k).value_or(0)` and
  `msg.value(k, 0)` through `Option.getD`.
* Wall-clock shift lookup (`current_shift_localtime`) is abstracted as the
  integer parameter `shiftNum` passed to each step function.
* Non-deterministic payload entries (the `timestamp_device` strings) and the
  floating-point derived field `cantidadPisadas_min` are omitted from the
  modelled publications.
-/

namespace Celima

/-- Modulus of a `uint32_t` accumulator. -/
def U32 : Nat := 4294967296

/-- Modulus of a `uint64_t` accumulator. -/
def U64 : Nat := 18446744073709551616

/-- C++ `static_cast<uint16_t>(x)` applied to an `int`: reduction modulo `2^16`. -/
def u16 (x : Int) : Nat := (x % 65536).toNat

/-- C++ `static_cast<uint64_t>(x)` applied to an `int`: reduction modulo `2^64`. -/
def u64 (x : Int) : Nat := (x % 18446744073709551616).toNat

/-- The `clean15` / `mask15` helper: cast to `uint16_t`, then drop the MSB
bank flag (`static_cast<uint16_t>(x) & 0x7FFF`). -/
def clean15 (x : Int) : Nat := u16 x &&& 0x7FFF

/-- The `is_corrupted` helper: `(x & 0x8000) != 0` on the raw `int` input. -/
def is_corrupted (x : Int) : Bool := decide (Int.land x 0x8000 ≠ 0)

/-- The `diff15(curr, prev)` helper: wrap-around delta of a 15-bit counter.
Both operands are masked 15-bit words (`< 0x8000`) in every call site, where
this equals the C++ `static_cast<uint16_t>(COUNTER_MOD + curr - prev)`. -/
def diff15 (curr prev : Nat) : Nat :=
  if prev ≤ curr then curr - prev else 0x8000 + curr - prev

/-- The `diff16(curr, prev)` helper: wrap-around delta of a 16-bit counter.
Operands are `uint16_t` values (`< 2^16`) in every call site, where this
equals the C++ `static_cast<uint16_t>(65536 + curr - prev)`. -/
def diff16 (curr prev : Nat) : Nat :=
  if prev ≤ curr then curr - prev else 65536 + curr - prev

/-- The member `safe_delta_u16(prev, curr, max_reasonable)` shared by
`EntradaSecadorProcessor` and `EntradaHornoProcessor`: reject a zero delta and
any delta above the bound. -/
def safe_delta_u16 (prev curr max_reasonable : Nat) : Nat :=
  let d := diff16 curr prev
  if d = 0 then 0 else if max_reasonable < d then 0 else d

/-- The header-level `safe_delta_u16(prev, curr, max_reasonable = 200)` used by
`EsmalteProcessor`, implemented on `int` arithmetic with rollover correction. -/
def safe_delta_u16_hdr (prev curr : Nat) (max_reasonable : Int) : Nat :=
  let delta : Int := (curr : Int) - (prev : Int)
  if 0 ≤ delta ∧ delta ≤ max_reasonable then delta.toNat
  else if delta < 0 ∧ 0 ≤ delta + 65536 ∧ delta + 65536 ≤ max_reasonable then
    (delta + 65536).toNat
  else 0

/-- One inbound `celima/data` JSON object, restricted to the numeric keys the
processors read; `none` models an absent key. -/
structure Msg where
  lineID : Option Int := none
  alarms : Option Int := none
  deviceType : Option Int := none
  checksum : Option Int := none
  cantidadProductos : Option Int := none
  tiempoProduccion_ds : Option Int := none
  paradas : Option Int := none
  tiempoParadas_s : Option Int := none
  arranques : Option Int := none
  tiempoOperacion_s : Option Int := none
  cantidad : Option Int := none
  tiempoProd_ds : Option Int := none
  fallaHorno : Option Int := none
  tiempoFalla_s : Option Int := none
  bancalinos0 : Option Int := none
  bancalinos1 : Option Int := none
  bancalinosComb1 : Option Int := none
  bancalinosComb2 : Option Int := none
  bancalinosTotal : Option Int := none
  cambioBarrera : Option Int := none
  cambioBarreraTotal : Option Int := none
  cambioSentido : Option Int := none
  cambioSentidoTotal : Option Int := none
  cantidad_total : Option Int := none
  paradas_1 : Option Int := none
  paradas_2 : Option Int := none
  timer1Hz : Option Int := none
  boxesQ1 : Option Int := none
  boxesQ2 : Option Int := none
  boxesQ6 : Option Int := none
  totalBroken : Option Int := none
  cajaCalidad : Option Int := none
  quebrados : Option Int := none
  quebrado : Option Int := none
  deriving DecidableEq

/-! Basic bounds for the counter arithmetic. -/

theorem u16_lt (x : Int) : u16 x < 65536 := by
  unfold u16; omega

theorem clean15_lt (x : Int) : clean15 x < 32768 :=
  Nat.lt_of_le_of_lt Nat.and_le_right (by norm_num)

theorem diff15_lt (curr prev : Nat) (hc : curr < 32768) : diff15 curr prev < 65536 := by
  unfold diff15; split <;> omega

theorem diff16_lt (curr prev : Nat) (hc : curr < 65536) : diff16 curr prev < 65536 := by
  unfold diff16; split <;> omega

theorem safe_delta_u16_lt (prev curr max_reasonable : Nat) (hc : curr < 65536) :
    safe_delta_u16 prev curr max_reasonable < 65536 := by
  unfold safe_delta_u16
  have := diff16_lt curr prev hc
  dsimp only
  split
  · omega
  · split <;> omega

theorem safe_delta_u16_hdr_lt (prev curr : Nat) (m : Int) (hm : m ≤ 65535) :
    safe_delta_u16_hdr prev curr m < 65536 := by
  unfold safe_delta_u16_hdr
  dsimp only
  split
  · next h => omega
  · split
    · next h => omega
    · omega

/-- Growth of a wrapped accumulator is monotone below the modulus. -/
theorem mod_add_mono (a d M : Nat) (h : a + d < M) : a ≤ (a + d) % M := by
  rw [Nat.mod_eq_of_lt h]; omega

/-- Splitting helper for the shared `!initialized || shift != shiftNum` guard. -/
theorem not_reset_iff (b : Bool) (sh s : Int) (h : ¬(b = false ∨ sh ≠ s)) :
    b = true ∧ sh = s := by
  constructor
  · cases b with
    | false => exact absurd (Or.inl rfl) h
    | true => rfl
  · by_contra hc
    exact h (Or.inr hc)

/-! ### PrensaHidraulica1Processor -/

/-- Per-line state of `PrensaHidraulica1Processor` (`PH1State`). -/
structure PH1State where
  initialized : Bool := false
  shift : Int := -1
  last_contador15 : Nat := 0
  acc_pisadas : Nat := 0
  last_raw_prod_time : Nat := 0
  acc_prod_time_ds : Nat := 0
  last_paradas15 : Nat := 0
  acc_paradas : Nat := 0
  last_tiempo_paradas15 : Nat := 0
  acc_tiempo_paradas_s : Nat := 0
  deriving DecidableEq

/-- State transition of `PrensaHidraulica1Processor::process` for one line. -/
def ph1Step (shiftNum : Int) (m : Msg) (st : PH1State) : PH1State :=
  let contador_clean := clean15 (m.cantidadProductos.getD 0)
  let time_clean := u16 (m.tiempoProduccion_ds.getD 0)
  let paradas_clean := clean15 (m.paradas.getD 0)
  let tiempo_paradas_clean := clean15 (m.tiempoParadas_s.getD 0)
  if st.initialized = false ∨ st.shift ≠ shiftNum then
    { initialized := true
      shift := shiftNum
      last_contador15 := contador_clean
      acc_pisadas := 0
      last_raw_prod_time := time_clean
      acc_prod_time_ds := 0
      last_paradas15 := paradas_clean
      acc_paradas := 0
      last_tiempo_paradas15 := tiempo_paradas_clean
      acc_tiempo_paradas_s := 0 }
  else
    { initialized := st.initialized
      shift := st.shift
      last_contador15 := contador_clean
      acc_pisadas := (st.acc_pisadas + diff15 contador_clean st.last_contador15) % U32
      last_raw_prod_time := time_clean
      acc_prod_time_ds := st.acc_prod_time_ds + diff16 time_clean st.last_raw_prod_time
      last_paradas15 := paradas_clean
      acc_paradas := (st.acc_paradas + diff15 paradas_clean st.last_paradas15) % U32
      last_tiempo_paradas15 := tiempo_paradas_clean
      acc_tiempo_paradas_s :=
        (st.acc_tiempo_paradas_s +
          diff15 tiempo_paradas_clean st.last_tiempo_paradas15) % U32 }

theorem ph1Step_init (s : Int) (m : Msg) (st : PH1State) :
    (ph1Step s m st).initialized = true ∧ (ph1Step s m st).shift = s := by
  simp only [ph1Step]
  split
  · exact ⟨rfl, rfl⟩
  · next h => exact not_reset_iff _ _ _ h

theorem ph1Step_same (s : Int) (m : Msg) (st : PH1State)
    (h : st.initialized = true) (hs : st.shift = s) :
    ph1Step s m st =
      { st with
        last_contador15 := clean15 (m.cantidadProductos.getD 0)
        acc_pisadas :=
          (st.acc_pisadas +
            diff15 (clean15 (m.cantidadProductos.getD 0)) st.last_contador15) % U32
        last_raw_prod_time := u16 (m.tiempoProduccion_ds.getD 0)
        acc_prod_time_ds :=
          st.acc_prod_time_ds +
            diff16 (u16 (m.tiempoProduccion_ds.getD 0)) st.last_raw_prod_time
        last_paradas15 := clean15 (m.paradas.getD 0)
        acc_paradas :=
          (st.acc_paradas + diff15 (clean15 (m.paradas.getD 0)) st.last_paradas15) % U32
        last_tiempo_paradas15 := clean15 (m.tiempoParadas_s.getD 0)
        acc_tiempo_paradas_s :=
          (st.acc_tiempo_paradas_s +
            diff15 (clean15 (m.tiempoParadas_s.getD 0)) st.last_tiempo_paradas15) % U32 } := by
  simp only [ph1Step]
  rw [if_neg (by simp [h, hs])]

theorem ph1Step_new (s : Int) (m : Msg) (st : PH1State)
    (h : st.initialized = false ∨ st.shift ≠ s) :
    ph1Step s m st =
      { initialized := true
        shift := s
        last_contador15 := clean15 (m.cantidadProductos.getD 0)
        acc_pisadas := 0
        last_raw_prod_time := u16 (m.tiempoProduccion_ds.getD 0)
        acc_prod_time_ds := 0
        last_paradas15 := clean15 (m.paradas.getD 0)
        acc_paradas := 0
        last_tiempo_paradas15 := clean15 (m.tiempoParadas_s.getD 0)
        acc_tiempo_paradas_s := 0 } := by
  simp only [ph1Step]
  rw [if_pos h]

/-- Pieces-per-stamp constants from the configuration header. -/
def L1_PIEZAS_PISADA : Int := 3

/-- Pieces-per-stamp constant for line 2. -/
def L2_PIEZAS_PISADA : Int := 3

/-- Pieces-per-stamp constant for line 3. -/
def L3_PIEZAS_PISADA : Int := 2

/-- Pieces-per-stamp constant for line 4. -/
def L4_PIEZAS_PISADA : Int := 4

/-- Pieces-per-stamp constant for line 5. -/
def L5_PIEZAS_PISADA : Int := 2

/-- Constant pieces-per-stamp factor used by `PrensaHidraulica2Processor`
(`const int PIEZAS_PISADA = 6`). -/
def PIEZAS_PISADA : Int := 6

/-- The `switch (line)` block of `PrensaHidraulica1Processor::process` that
selects `factor_pisadas`. -/
def factor_pisadas (line : Int) : Int :=
  if line = 1 then L1_PIEZAS_PISADA
  else if line = 2 then L2_PIEZAS_PISADA
  else if line = 3 then L3_PIEZAS_PISADA
  else if line = 4 then L4_PIEZAS_PISADA
  else if line = 5 then L5_PIEZAS_PISADA
  else 3

/-- Deterministic numeric and boolean entries of the `production` payload
published by `PrensaHidraulica1Processor` (timestamps and the floating-point
`cantidadPisadas_min` rate are omitted; `tiempoProduccion_turno_s` is the
truncation of the deci-second tick accumulator). -/
structure PH1Out where
  maquina_id : Int
  turno : Int
  cantidadProductos_raw : Int
  cantidadProductos_instantaneo : Nat
  bit15_corruption_cantidadProductos : Bool
  cantidadPisadas_turno : Nat
  cantidadProductos_turno : Nat
  tiempoProduccion_ds_instantaneo : Nat
  tiempoProduccion_turno_s : Nat
  paradas_raw : Int
  paradas_instantaneo : Nat
  paradas_turno : Nat
  bit15_corruption_paradas : Bool
  tiempoParadas_raw : Int
  tiempoParadas_instantaneo : Nat
  tiempoParadas_turno_s : Nat
  bit15_corruption_tiempoParadas : Bool
  deriving DecidableEq

/-- `PrensaHidraulica1Processor::process`: state transition plus the
`production` publication for one sample. -/
def ph1Process (shiftNum : Int) (m : Msg) (st : PH1State) : PH1State × PH1Out :=
  let st' := ph1Step shiftNum m st
  let line := m.lineID.getD 0
  (st',
    { maquina_id := 1
      turno := shiftNum
      cantidadProductos_raw := m.cantidadProductos.getD 0
      cantidadProductos_instantaneo := clean15 (m.cantidadProductos.getD 0)
      bit15_corruption_cantidadProductos := is_corrupted (m.cantidadProductos.getD 0)
      cantidadPisadas_turno := st'.acc_pisadas
      cantidadProductos_turno := (st'.acc_pisadas * (factor_pisadas line).toNat) % U32
      tiempoProduccion_ds_instantaneo := u16 (m.tiempoProduccion_ds.getD 0)
      tiempoProduccion_turno_s := st'.acc_prod_time_ds / 10
      paradas_raw := m.paradas.getD 0
      paradas_instantaneo := clean15 (m.paradas.getD 0)
      paradas_turno := st'.acc_paradas
      bit15_corruption_paradas := is_corrupted (m.paradas.getD 0)
      tiempoParadas_raw := m.tiempoParadas_s.getD 0
      tiempoParadas_instantaneo := clean15 (m.tiempoParadas_s.getD 0)
      tiempoParadas_turno_s := st'.acc_tiempo_paradas_s
      bit15_corruption_tiempoParadas := is_corrupted (m.tiempoParadas_s.getD 0) })

/-! ### PrensaHidraulica2Processor

The state record and the in-lock update of `PrensaHidraulica2Processor` are
textually identical to those of `PrensaHidraulica1Processor`; the processors
differ in the published `maquina_id` and in the pieces factor
(`PIEZAS_PISADA = 6` instead of the per-line `factor_pisadas`). -/

/-- Per-line state of `PrensaHidraulica2Processor` (`PH2State`). -/
structure PH2State where
  initialized : Bool := false
  shift : Int := -1
  last_contador15 : Nat := 0
  acc_pisadas : Nat := 0
  last_raw_prod_time : Nat := 0
  acc_prod_time_ds : Nat := 0
  last_paradas15 : Nat := 0
  acc_paradas : Nat := 0
  last_tiempo_paradas15 : Nat := 0
  acc_tiempo_paradas_s : Nat := 0
  deriving DecidableEq

/-- State transition of `PrensaHidraulica2Processor::process` for one line. -/
def ph2Step (shiftNum : Int) (m : Msg) (st : PH2State) : PH2State :=
  let contador_clean := clean15 (m.cantidadProductos.getD 0)
  let time_clean := u16 (m.tiempoProduccion_ds.getD 0)
  let paradas_clean := clean15 (m.paradas.getD 0)
  let tiempo_paradas_clean := clean15 (m.tiempoParadas_s.getD 0)
  if st.initialized = false ∨ st.shift ≠ shiftNum then
    { initialized := true
      shift := shiftNum
      last_contador15 := contador_clean
      acc_pisadas := 0
      last_raw_prod_time := time_clean
      acc_prod_time_ds := 0
      last_paradas15 := paradas_clean
      acc_paradas := 0
      last_tiempo_paradas15 := tiempo_paradas_clean
      acc_tiempo_paradas_s := 0 }
  else
    { initialized := st.initialized
      shift := st.shift
      last_contador15 := contador_clean
      acc_pisadas := (st.acc_pisadas + diff15 contador_clean st.last_contador15) % U32
      last_raw_prod_time := time_clean
      acc_prod_time_ds := st.acc_prod_time_ds + diff16 time_clean st.last_raw_prod_time
      last_paradas15 := paradas_clean
      acc_paradas := (st.acc_paradas + diff15 paradas_clean st.last_paradas15) % U32
      last_tiempo_paradas15 := tiempo_paradas_clean
      acc_tiempo_paradas_s :=
        (st.acc_tiempo_paradas_s +
          diff15 tiempo_paradas_clean st.last_tiempo_paradas15) % U32 }

theorem ph2Step_init (s : Int) (m : Msg) (st : PH2State) :
    (ph2Step s m st).initialized = true ∧ (ph2Step s m st).shift = s := by
  simp only [ph2Step]
  split
  · exact ⟨rfl, rfl⟩
  · next h => exact not_reset_iff _ _ _ h

theorem ph2Step_same (s : Int) (m : Msg) (st : PH2State)
    (h : st.initialized = true) (hs : st.shift = s) :
    ph2Step s m st =
      { st with
        last_contador15 := clean15 (m.cantidadProductos.getD 0)
        acc_pisadas :=
          (st.acc_pisadas +
            diff15 (clean15 (m.cantidadProductos.getD 0)) st.last_contador15) % U32
        last_raw_prod_time := u16 (m.tiempoProduccion_ds.getD 0)
        acc_prod_time_ds :=
          st.acc_prod_time_ds +
            diff16 (u16 (m.tiempoProduccion_ds.getD 0)) st.last_raw_prod_time
        last_paradas15 := clean15 (m.paradas.getD 0)
        acc_paradas :=
          (st.acc_paradas + diff15 (clean15 (m.paradas.getD 0)) st.last_paradas15) % U32
        last_tiempo_paradas15 := clean15 (m.tiempoParadas_s.getD 0)
        acc_tiempo_paradas_s :=
          (st.acc_tiempo_paradas_s +
            diff15 (clean15 (m.tiempoParadas_s.getD 0)) st.last_tiempo_paradas15) % U32 } := by
  simp only [ph2Step]
  rw [if_neg (by simp [h, hs])]

theorem ph2Step_new (s : Int) (m : Msg) (st : PH2State)
    (h : st.initialized = false ∨ st.shift ≠ s) :
    ph2Step s m st =
      { initialized := true
        shift := s
        last_contador15 := clean15 (m.cantidadProductos.getD 0)
        acc_pisadas := 0
        last_raw_prod_time := u16 (m.tiempoProduccion_ds.getD 0)
        acc_prod_time_ds := 0
        last_paradas15 := clean15 (m.paradas.getD 0)
        acc_paradas := 0
        last_tiempo_paradas15 := clean15 (m.tiempoParadas_s.getD 0)
        acc_tiempo_paradas_s := 0 } := by
  simp only [ph2Step]
  rw [if_pos h]

/-- Deterministic entries of the `production` payload published by
`PrensaHidraulica2Processor` (same shape as `PH1Out`). -/
structure PH2Out where
  maquina_id : Int
  turno : Int
  cantidadProductos_raw : Int
  cantidadProductos_instantaneo : Nat
  bit15_corruption_cantidadProductos : Bool
  cantidadPisadas_turno : Nat
  cantidadProductos_turno : Nat
  tiempoProduccion_ds_instantaneo : Nat
  tiempoProduccion_turno_s : Nat
  paradas_raw : Int
  paradas_instantaneo : Nat
  paradas_turno : Nat
  bit15_corruption_paradas : Bool
  tiempoParadas_raw : Int
  tiempoParadas_instantaneo : Nat
  tiempoParadas_turno_s : Nat
  bit15_corruption_tiempoParadas : Bool
  deriving DecidableEq

/-- `PrensaHidraulica2Processor::process`: state transition plus the
`production` publication; `cantidadProductos_turno` uses the constant
`PIEZAS_PISADA` factor. -/
def ph2Process (shiftNum : Int) (m : Msg) (st : PH2State) : PH2State × PH2Out :=
  let st' := ph2Step shiftNum m st
  (st',
    { maquina_id := 2
      turno := shiftNum
      cantidadProductos_raw := m.cantidadProductos.getD 0
      cantidadProductos_instantaneo := clean15 (m.cantidadProductos.getD 0)
      bit15_corruption_cantidadProductos := is_corrupted (m.cantidadProductos.getD 0)
      cantidadPisadas_turno := st'.acc_pisadas
      cantidadProductos_turno := (st'.acc_pisadas * PIEZAS_PISADA.toNat) % U32
      tiempoProduccion_ds_instantaneo := u16 (m.tiempoProduccion_ds.getD 0)
      tiempoProduccion_turno_s := st'.acc_prod_time_ds / 10
      paradas_raw := m.paradas.getD 0
      paradas_instantaneo := clean15 (m.paradas.getD 0)
      paradas_turno := st'.acc_paradas
      bit15_corruption_paradas := is_corrupted (m.paradas.getD 0)
      tiempoParadas_raw := m.tiempoParadas_s.getD 0
      tiempoParadas_instantaneo := clean15 (m.tiempoParadas_s.getD 0)
      tiempoParadas_turno_s := st'.acc_tiempo_paradas_s
      bit15_corruption_tiempoParadas := is_corrupted (m.tiempoParadas_s.getD 0) })

/-! ### EntradaSecadorProcessor (DryerIn) -/

/-- Per-line state of `EntradaSecadorProcessor`. -/
structure ESState where
  initialized : Bool := false
  shift : Int := -1
  last_arranques : Nat := 0
  acc_arranques : Nat := 0
  last_t_operacion : Nat := 0
  acc_t_operacion_s : Nat := 0
  deriving DecidableEq

/-- State transition of `EntradaSecadorProcessor::process` for one line:
both signals are 15-bit masked and advance through the member
`safe_delta_u16` with bounds 100 (`arranques`) and 30 (`tiempoOperacion_s`). -/
def esStep (shiftNum : Int) (m : Msg) (st : ESState) : ESState :=
  let raw_arr := clean15 (m.arranques.getD 0)
  let raw_t_oper := clean15 (m.tiempoOperacion_s.getD 0)
  if st.initialized = false ∨ st.shift ≠ shiftNum then
    { initialized := true
      shift := shiftNum
      last_arranques := raw_arr
      acc_arranques := 0
      last_t_operacion := raw_t_oper
      acc_t_operacion_s := 0 }
  else
    { initialized := st.initialized
      shift := st.shift
      last_arranques := raw_arr
      acc_arranques := (st.acc_arranques + safe_delta_u16 st.last_arranques raw_arr 100) % U32
      last_t_operacion := raw_t_oper
      acc_t_operacion_s :=
        (st.acc_t_operacion_s + safe_delta_u16 st.last_t_operacion raw_t_oper 30) % U32 }

theorem esStep_init (s : Int) (m : Msg) (st : ESState) :
    (esStep s m st).initialized = true ∧ (esStep s m st).shift = s := by
  simp only [esStep]
  split
  · exact ⟨rfl, rfl⟩
  · next h => exact not_reset_iff _ _ _ h

theorem esStep_same (s : Int) (m : Msg) (st : ESState)
    (h : st.initialized = true) (hs : st.shift = s) :
    esStep s m st =
      { st with
        last_arranques := clean15 (m.arranques.getD 0)
        acc_arranques :=
          (st.acc_arranques +
            safe_delta_u16 st.last_arranques (clean15 (m.arranques.getD 0)) 100) % U32
        last_t_operacion := clean15 (m.tiempoOperacion_s.getD 0)
        acc_t_operacion_s :=
          (st.acc_t_operacion_s +
            safe_delta_u16 st.last_t_operacion (clean15 (m.tiempoOperacion_s.getD 0)) 30) % U32 } := by
  simp only [esStep]
  rw [if_neg (by simp [h, hs])]

theorem esStep_new (s : Int) (m : Msg) (st : ESState)
    (h : st.initialized = false ∨ st.shift ≠ s) :
    esStep s m st =
      { initialized := true
        shift := s
        last_arranques := clean15 (m.arranques.getD 0)
        acc_arranques := 0
        last_t_operacion := clean15 (m.tiempoOperacion_s.getD 0)
        acc_t_operacion_s := 0 } := by
  simp only [esStep]
  rw [if_pos h]

/-! ### SalidaSecadorProcessor (DryerOut) -/

/-- Per-line state of `SalidaSecadorProcessor`. -/
structure SSState where
  initialized : Bool := false
  shift : Int := -1
  last_prod_q15 : Nat := 0
  acc_prod_q : Nat := 0
  last_stop_q15 : Nat := 0
  acc_stop_q : Nat := 0
  last_raw_prod_t : Nat := 0
  acc_prod_t_ds : Nat := 0
  last_stop_t15 : Nat := 0
  acc_stop_t_s : Nat := 0
  deriving DecidableEq

/-- State transition of `SalidaSecadorProcessor::process` for one line: the
three 15-bit counters advance by the inline 15-bit modulo delta and the
16-bit deci-second clock by the inline 16-bit modulo delta (its C++ `double`
second accumulator is modelled as deci-second ticks). -/
def ssStep (shiftNum : Int) (m : Msg) (st : SSState) : SSState :=
  let prod_q15 := clean15 (m.cantidadProductos.getD 0)
  let stop_q15 := clean15 (m.paradas.getD 0)
  let prod_t16 := u16 (m.tiempoProduccion_ds.getD 0)
  let stop_t15 := clean15 (m.tiempoParadas_s.getD 0)
  if st.initialized = false ∨ st.shift ≠ shiftNum then
    { initialized := true
      shift := shiftNum
      last_prod_q15 := prod_q15
      acc_prod_q := 0
      last_stop_q15 := stop_q15
      acc_stop_q := 0
      last_raw_prod_t := prod_t16
      acc_prod_t_ds := 0
      last_stop_t15 := stop_t15
      acc_stop_t_s := 0 }
  else
    { initialized := st.initialized
      shift := st.shift
      last_prod_q15 := prod_q15
      acc_prod_q := (st.acc_prod_q + diff15 prod_q15 st.last_prod_q15) % U32
      last_stop_q15 := stop_q15
      acc_stop_q := (st.acc_stop_q + diff15 stop_q15 st.last_stop_q15) % U32
      last_raw_prod_t := prod_t16
      acc_prod_t_ds := st.acc_prod_t_ds + diff16 prod_t16 st.last_raw_prod_t
      last_stop_t15 := stop_t15
      acc_stop_t_s := (st.acc_stop_t_s + diff15 stop_t15 st.last_stop_t15) % U32 }

theorem ssStep_init (s : Int) (m : Msg) (st : SSState) :
    (ssStep s m st).initialized = true ∧ (ssStep s m st).shift = s := by
  simp only [ssStep]
  split
  · exact ⟨rfl, rfl⟩
  · next h => exact not_reset_iff _ _ _ h

theorem ssStep_same (s : Int) (m : Msg) (st : SSState)
    (h : st.initialized = true) (hs : st.shift = s) :
    ssStep s m st =
      { st with
        last_prod_q15 := clean15 (m.cantidadProductos.getD 0)
        acc_prod_q :=
          (st.acc_prod_q + diff15 (clean15 (m.cantidadProductos.getD 0)) st.last_prod_q15) % U32
        last_stop_q15 := clean15 (m.paradas.getD 0)
        acc_stop_q :=
          (st.acc_stop_q + diff15 (clean15 (m.paradas.getD 0)) st.last_stop_q15) % U32
        last_raw_prod_t := u16 (m.tiempoProduccion_ds.getD 0)
        acc_prod_t_ds :=
          st.acc_prod_t_ds + diff16 (u16 (m.tiempoProduccion_ds.getD 0)) st.last_raw_prod_t
        last_stop_t15 := clean15 (m.tiempoParadas_s.getD 0)
        acc_stop_t_s :=
          (st.acc_stop_t_s + diff15 (clean15 (m.tiempoParadas_s.getD 0)) st.last_stop_t15) % U32 } := by
  simp only [ssStep]
  rw [if_neg (by simp [h, hs])]

theorem ssStep_new (s : Int) (m : Msg) (st : SSState)
    (h : st.initialized = false ∨ st.shift ≠ s) :
    ssStep s m st =
      { initialized := true
        shift := s
        last_prod_q15 := clean15 (m.cantidadProductos.getD 0)
        acc_prod_q := 0
        last_stop_q15 := clean15 (m.paradas.getD 0)
        acc_stop_q := 0
        last_raw_prod_t := u16 (m.tiempoProduccion_ds.getD 0)
        acc_prod_t_ds := 0
        last_stop_t15 := clean15 (m.tiempoParadas_s.getD 0)
        acc_stop_t_s := 0 } := by
  simp only [ssStep]
  rw [if_pos h]

/-! ### EsmalteProcessor (Glaze) -/

/-- Per-line state of `EsmalteProcessor`. -/
structure EsmState where
  initialized : Bool := false
  shift : Int := -1
  last_raw_prod_q : Nat := 0
  acc_prod_q : Nat := 0
  last_raw_stop_q : Nat := 0
  acc_stop_q : Nat := 0
  last_raw_prod_t : Nat := 0
  acc_prod_t_ds : Nat := 0
  last_raw_stop_t : Nat := 0
  acc_stop_t_s : Nat := 0
  deriving DecidableEq

/-- State transition of `EsmalteProcessor::process` for one line: the raw
words are cast to `uint16_t` without the 15-bit mask and every signal
advances through the header `safe_delta_u16` with its default bound 200. -/
def esmStep (shiftNum : Int) (m : Msg) (st : EsmState) : EsmState :=
  let raw_prod_q := u16 (m.cantidadProductos.getD 0)
  let raw_stop_q := u16 (m.paradas.getD 0)
  let raw_prod_t := u16 (m.tiempoProduccion_ds.getD 0)
  let raw_stop_t := u16 (m.tiempoParadas_s.getD 0)
  if st.initialized = false ∨ st.shift ≠ shiftNum then
    { initialized := true
      shift := shiftNum
      last_raw_prod_q := raw_prod_q
      acc_prod_q := 0
      last_raw_stop_q := raw_stop_q
      acc_stop_q := 0
      last_raw_prod_t := raw_prod_t
      acc_prod_t_ds := 0
      last_raw_stop_t := raw_stop_t
      acc_stop_t_s := 0 }
  else
    { initialized := st.initialized
      shift := st.shift
      last_raw_prod_q := raw_prod_q
      acc_prod_q := (st.acc_prod_q + safe_delta_u16_hdr st.last_raw_prod_q raw_prod_q 200) % U32
      last_raw_stop_q := raw_stop_q
      acc_stop_q := (st.acc_stop_q + safe_delta_u16_hdr st.last_raw_stop_q raw_stop_q 200) % U32
      last_raw_prod_t := raw_prod_t
      acc_prod_t_ds := st.acc_prod_t_ds + safe_delta_u16_hdr st.last_raw_prod_t raw_prod_t 200
      last_raw_stop_t := raw_stop_t
      acc_stop_t_s :=
        (st.acc_stop_t_s + safe_delta_u16_hdr st.last_raw_stop_t raw_stop_t 200) % U32 }

theorem esmStep_init (s : Int) (m : Msg) (st : EsmState) :
    (esmStep s m st).initialized = true ∧ (esmStep s m st).shift = s := by
  simp only [esmStep]
  split
  · exact ⟨rfl, rfl⟩
  · next h => exact not_reset_iff _ _ _ h

theorem esmStep_same (s : Int) (m : Msg) (st : EsmState)
    (h : st.initialized = true) (hs : st.shift = s) :
    esmStep s m st =
      { st with
        last_raw_prod_q := u16 (m.cantidadProductos.getD 0)
        acc_prod_q :=
          (st.acc_prod_q +
            safe_delta_u16_hdr st.last_raw_prod_q (u16 (m.cantidadProductos.getD 0)) 200) % U32
        last_raw_stop_q := u16 (m.paradas.getD 0)
        acc_stop_q :=
          (st.acc_stop_q +
            safe_delta_u16_hdr st.last_raw_stop_q (u16 (m.paradas.getD 0)) 200) % U32
        last_raw_prod_t := u16 (m.tiempoProduccion_ds.getD 0)
        acc_prod_t_ds :=
          st.acc_prod_t_ds +
            safe_delta_u16_hdr st.last_raw_prod_t (u16 (m.tiempoProduccion_ds.getD 0)) 200
        last_raw_stop_t := u16 (m.tiempoParadas_s.getD 0)
        acc_stop_t_s :=
          (st.acc_stop_t_s +
            safe_delta_u16_hdr st.last_raw_stop_t (u16 (m.tiempoParadas_s.getD 0)) 200) % U32 } := by
  simp only [esmStep]
  rw [if_neg (by simp [h, hs])]

theorem esmStep_new (s : Int) (m : Msg) (st : EsmState)
    (h : st.initialized = false ∨ st.shift ≠ s) :
    esmStep s m st =
      { initialized := true
        shift := s
        last_raw_prod_q := u16 (m.cantidadProductos.getD 0)
        acc_prod_q := 0
        last_raw_stop_q := u16 (m.paradas.getD 0)
        acc_stop_q := 0
        last_raw_prod_t := u16 (m.tiempoProduccion_ds.getD 0)
        acc_prod_t_ds := 0
        last_raw_stop_t := u16 (m.tiempoParadas_s.getD 0)
        acc_stop_t_s := 0 } := by
  simp only [esmStep]
  rw [if_pos h]

/-! ### EntradaHornoProcessor (KilnIn) -/

/-- Per-line state of `EntradaHornoProcessor`. -/
structure EHState where
  initialized : Bool := false
  shift : Int := -1
  last_raw_prod_q : Nat := 0
  acc_prod_q : Nat := 0
  last_raw_stop_q : Nat := 0
  acc_stop_q : Nat := 0
  last_raw_falla_q : Nat := 0
  acc_falla_q : Nat := 0
  last_raw_prod_t : Nat := 0
  acc_prod_t_ds : Nat := 0
  last_raw_stop_t : Nat := 0
  acc_stop_t_s : Nat := 0
  last_raw_falla_t : Nat := 0
  acc_falla_t_s : Nat := 0
  deriving DecidableEq

/-- State transition of `EntradaHornoProcessor::process` for one line: all six
signals are 15-bit masked and advance through the member `safe_delta_u16`
with bounds 200, 50, 20, 250, 30 and 30 (the `double` second accumulator for
`tiempoProd_ds` is modelled as deci-second ticks). -/
def ehStep (shiftNum : Int) (m : Msg) (st : EHState) : EHState :=
  let raw_prod_q := clean15 (m.cantidad.getD 0)
  let raw_stop_q := clean15 (m.paradas.getD 0)
  let raw_falla_q := clean15 (m.fallaHorno.getD 0)
  let raw_prod_t := clean15 (m.tiempoProd_ds.getD 0)
  let raw_stop_t := clean15 (m.tiempoParadas_s.getD 0)
  let raw_falla_t := clean15 (m.tiempoFalla_s.getD 0)
  if st.initialized = false ∨ st.shift ≠ shiftNum then
    { initialized := true
      shift := shiftNum
      last_raw_prod_q := raw_prod_q
      acc_prod_q := 0
      last_raw_stop_q := raw_stop_q
      acc_stop_q := 0
      last_raw_falla_q := raw_falla_q
      acc_falla_q := 0
      last_raw_prod_t := raw_prod_t
      acc_prod_t_ds := 0
      last_raw_stop_t := raw_stop_t
      acc_stop_t_s := 0
      last_raw_falla_t := raw_falla_t
      acc_falla_t_s := 0 }
  else
    { initialized := st.initialized
      shift := st.shift
      last_raw_prod_q := raw_prod_q
      acc_prod_q := (st.acc_prod_q + safe_delta_u16 st.last_raw_prod_q raw_prod_q 200) % U32
      last_raw_stop_q := raw_stop_q
      acc_stop_q := (st.acc_stop_q + safe_delta_u16 st.last_raw_stop_q raw_stop_q 50) % U32
      last_raw_falla_q := raw_falla_q
      acc_falla_q := (st.acc_falla_q + safe_delta_u16 st.last_raw_falla_q raw_falla_q 20) % U32
      last_raw_prod_t := raw_prod_t
      acc_prod_t_ds := st.acc_prod_t_ds + safe_delta_u16 st.last_raw_prod_t raw_prod_t 250
      last_raw_stop_t := raw_stop_t
      acc_stop_t_s := (st.acc_stop_t_s + safe_delta_u16 st.last_raw_stop_t raw_stop_t 30) % U32
      last_raw_falla_t := raw_falla_t
      acc_falla_t_s :=
        (st.acc_falla_t_s + safe_delta_u16 st.last_raw_falla_t raw_falla_t 30) % U32 }

theorem ehStep_init (s : Int) (m : Msg) (st : EHState) :
    (ehStep s m st).initialized = true ∧ (ehStep s m st).shift = s := by
  simp only [ehStep]
  split
  · exact ⟨rfl, rfl⟩
  · next h => exact not_reset_iff _ _ _ h

theorem ehStep_same (s : Int) (m : Msg) (st : EHState)
    (h : st.initialized = true) (hs : st.shift = s) :
    ehStep s m st =
      { st with
        last_raw_prod_q := clean15 (m.cantidad.getD 0)
        acc_prod_q :=
          (st.acc_prod_q +
            safe_delta_u16 st.last_raw_prod_q (clean15 (m.cantidad.getD 0)) 200) % U32
        last_raw_stop_q := clean15 (m.paradas.getD 0)
        acc_stop_q :=
          (st.acc_stop_q +
            safe_delta_u16 st.last_raw_stop_q (clean15 (m.paradas.getD 0)) 50) % U32
        last_raw_falla_q := clean15 (m.fallaHorno.getD 0)
        acc_falla_q :=
          (st.acc_falla_q +
            safe_delta_u16 st.last_raw_falla_q (clean15 (m.fallaHorno.getD 0)) 20) % U32
        last_raw_prod_t := clean15 (m.tiempoProd_ds.getD 0)
        acc_prod_t_ds :=
          st.acc_prod_t_ds +
            safe_delta_u16 st.last_raw_prod_t (clean15 (m.tiempoProd_ds.getD 0)) 250
        last_raw_stop_t := clean15 (m.tiempoParadas_s.getD 0)
        acc_stop_t_s :=
          (st.acc_stop_t_s +
            safe_delta_u16 st.last_raw_stop_t (clean15 (m.tiempoParadas_s.getD 0)) 30) % U32
        last_raw_falla_t := clean15 (m.tiempoFalla_s.getD 0)
        acc_falla_t_s :=
          (st.acc_falla_t_s +
            safe_delta_u16 st.last_raw_falla_t (clean15 (m.tiempoFalla_s.getD 0)) 30) % U32 } := by
  simp only [ehStep]
  rw [if_neg (by simp [h, hs])]

theorem ehStep_new (s : Int) (m : Msg) (st : EHState)
    (h : st.initialized = false ∨ st.shift ≠ s) :
    ehStep s m st =
      { initialized := true
        shift := s
        last_raw_prod_q := clean15 (m.cantidad.getD 0)
        acc_prod_q := 0
        last_raw_stop_q := clean15 (m.paradas.getD 0)
        acc_stop_q := 0
        last_raw_falla_q := clean15 (m.fallaHorno.getD 0)
        acc_falla_q := 0
        last_raw_prod_t := clean15 (m.tiempoProd_ds.getD 0)
        acc_prod_t_ds := 0
        last_raw_stop_t := clean15 (m.tiempoParadas_s.getD 0)
        acc_stop_t_s := 0
        last_raw_falla_t := clean15 (m.tiempoFalla_s.getD 0)
        acc_falla_t_s := 0 } := by
  simp only [ehStep]
  rw [if_pos h]

/-! ### SalidaHornoProcessor (KilnOut) -/

/-- Per-line state of `SalidaHornoProcessor`: thirteen 15-bit counters plus
the 16-bit `timer1Hz` second clock. -/
structure SHState where
  initialized : Bool := false
  shift : Int := -1
  last_bancalinos0 : Nat := 0
  acc_bancalinos0 : Nat := 0
  last_bancalinos1 : Nat := 0
  acc_bancalinos1 : Nat := 0
  last_bancalinosComb1 : Nat := 0
  acc_bancalinosComb1 : Nat := 0
  last_bancalinosComb2 : Nat := 0
  acc_bancalinosComb2 : Nat := 0
  last_bancalinosTotal : Nat := 0
  acc_bancalinosTotal : Nat := 0
  last_cambioBarrera : Nat := 0
  acc_cambioBarrera : Nat := 0
  last_cambioBarreraTotal : Nat := 0
  acc_cambioBarreraTotal : Nat := 0
  last_cambioSentido : Nat := 0
  acc_cambioSentido : Nat := 0
  last_cambioSentidoTotal : Nat := 0
  acc_cambioSentidoTotal : Nat := 0
  last_cantidad : Nat := 0
  acc_cantidad : Nat := 0
  last_cantidad_total : Nat := 0
  acc_cantidad_total : Nat := 0
  last_paradas_1 : Nat := 0
  acc_paradas_1 : Nat := 0
  last_paradas_2 : Nat := 0
  acc_paradas_2 : Nat := 0
  last_timer1Hz : Nat := 0
  acc_timer1Hz : Nat := 0
  acc_tiempo_operacion_s : Nat := 0
  deriving DecidableEq

/-- State transition of `SalidaHornoProcessor::process` for one line. -/
def shStep (shiftNum : Int) (m : Msg) (st : SHState) : SHState :=
  let bancalinos0_clean := clean15 (m.bancalinos0.getD 0)
  let bancalinos1_clean := clean15 (m.bancalinos1.getD 0)
  let bancalinosComb1_clean := clean15 (m.bancalinosComb1.getD 0)
  let bancalinosComb2_clean := clean15 (m.bancalinosComb2.getD 0)
  let bancalinosTotal_clean := clean15 (m.bancalinosTotal.getD 0)
  let cambioBarrera_clean := clean15 (m.cambioBarrera.getD 0)
  let cambioBarreraTotal_clean := clean15 (m.cambioBarreraTotal.getD 0)
  let cambioSentido_clean := clean15 (m.cambioSentido.getD 0)
  let cambioSentidoTotal_clean := clean15 (m.cambioSentidoTotal.getD 0)
  let cantidad_clean := clean15 (m.cantidad.getD 0)
  let cantidad_total_clean := clean15 (m.cantidad_total.getD 0)
  let paradas_1_clean := clean15 (m.paradas_1.getD 0)
  let paradas_2_clean := clean15 (m.paradas_2.getD 0)
  let timer1Hz_clean := u16 (m.timer1Hz.getD 0)
  if st.initialized = false ∨ st.shift ≠ shiftNum then
    { initialized := true
      shift := shiftNum
      last_bancalinos0 := bancalinos0_clean
      acc_bancalinos0 := 0
      last_bancalinos1 := bancalinos1_clean
      acc_bancalinos1 := 0
      last_bancalinosComb1 := bancalinosComb1_clean
      acc_bancalinosComb1 := 0
      last_bancalinosComb2 := bancalinosComb2_clean
      acc_bancalinosComb2 := 0
      last_bancalinosTotal := bancalinosTotal_clean
      acc_bancalinosTotal := 0
      last_cambioBarrera := cambioBarrera_clean
      acc_cambioBarrera := 0
      last_cambioBarreraTotal := cambioBarreraTotal_clean
      acc_cambioBarreraTotal := 0
      last_cambioSentido := cambioSentido_clean
      acc_cambioSentido := 0
      last_cambioSentidoTotal := cambioSentidoTotal_clean
      acc_cambioSentidoTotal := 0
      last_cantidad := cantidad_clean
      acc_cantidad := 0
      last_cantidad_total := cantidad_total_clean
      acc_cantidad_total := 0
      last_paradas_1 := paradas_1_clean
      acc_paradas_1 := 0
      last_paradas_2 := paradas_2_clean
      acc_paradas_2 := 0
      last_timer1Hz := timer1Hz_clean
      acc_timer1Hz := 0
      acc_tiempo_operacion_s := 0 }
  else
    { initialized := st.initialized
      shift := st.shift
      last_bancalinos0 := bancalinos0_clean
      acc_bancalinos0 := (st.acc_bancalinos0 + diff15 bancalinos0_clean st.last_bancalinos0) % U32
      last_bancalinos1 := bancalinos1_clean
      acc_bancalinos1 := (st.acc_bancalinos1 + diff15 bancalinos1_clean st.last_bancalinos1) % U32
      last_bancalinosComb1 := bancalinosComb1_clean
      acc_bancalinosComb1 :=
        (st.acc_bancalinosComb1 + diff15 bancalinosComb1_clean st.last_bancalinosComb1) % U32
      last_bancalinosComb2 := bancalinosComb2_clean
      acc_bancalinosComb2 :=
        (st.acc_bancalinosComb2 + diff15 bancalinosComb2_clean st.last_bancalinosComb2) % U32
      last_bancalinosTotal := bancalinosTotal_clean
      acc_bancalinosTotal :=
        (st.acc_bancalinosTotal + diff15 bancalinosTotal_clean st.last_bancalinosTotal) % U32
      last_cambioBarrera := cambioBarrera_clean
      acc_cambioBarrera :=
        (st.acc_cambioBarrera + diff15 cambioBarrera_clean st.last_cambioBarrera) % U32
      last_cambioBarreraTotal := cambioBarreraTotal_clean
      acc_cambioBarreraTotal :=
        (st.acc_cambioBarreraTotal + diff15 cambioBarreraTotal_clean st.last_cambioBarreraTotal) % U32
      last_cambioSentido := cambioSentido_clean
      acc_cambioSentido :=
        (st.acc_cambioSentido + diff15 cambioSentido_clean st.last_cambioSentido) % U32
      last_cambioSentidoTotal := cambioSentidoTotal_clean
      acc_cambioSentidoTotal :=
        (st.acc_cambioSentidoTotal + diff15 cambioSentidoTotal_clean st.last_cambioSentidoTotal) % U32
      last_cantidad := cantidad_clean
      acc_cantidad := (st.acc_cantidad + diff15 cantidad_clean st.last_cantidad) % U32
      last_cantidad_total := cantidad_total_clean
      acc_cantidad_total :=
        (st.acc_cantidad_total + diff15 cantidad_total_clean st.last_cantidad_total) % U32
      last_paradas_1 := paradas_1_clean
      acc_paradas_1 := (st.acc_paradas_1 + diff15 paradas_1_clean st.last_paradas_1) % U32
      last_paradas_2 := paradas_2_clean
      acc_paradas_2 := (st.acc_paradas_2 + diff15 paradas_2_clean st.last_paradas_2) % U32
      last_timer1Hz := timer1Hz_clean
      acc_timer1Hz := (st.acc_timer1Hz + diff16 timer1Hz_clean st.last_timer1Hz) % U32
      acc_tiempo_operacion_s :=
        (st.acc_tiempo_operacion_s + diff16 timer1Hz_clean st.last_timer1Hz) % U32 }

theorem shStep_init (s : Int) (m : Msg) (st : SHState) :
    (shStep s m st).initialized = true ∧ (shStep s m st).shift = s := by
  simp only [shStep]
  split
  · exact ⟨rfl, rfl⟩
  · next h => exact not_reset_iff _ _ _ h

theorem shStep_same (s : Int) (m : Msg) (st : SHState)
    (h : st.initialized = true) (hs : st.shift = s) :
    shStep s m st =
      { st with
        last_bancalinos0 := clean15 (m.bancalinos0.getD 0)
        acc_bancalinos0 :=
          (st.acc_bancalinos0 + diff15 (clean15 (m.bancalinos0.getD 0)) st.last_bancalinos0) % U32
        last_bancalinos1 := clean15 (m.bancalinos1.getD 0)
        acc_bancalinos1 :=
          (st.acc_bancalinos1 + diff15 (clean15 (m.bancalinos1.getD 0)) st.last_bancalinos1) % U32
        last_bancalinosComb1 := clean15 (m.bancalinosComb1.getD 0)
        acc_bancalinosComb1 :=
          (st.acc_bancalinosComb1 +
            diff15 (clean15 (m.bancalinosComb1.getD 0)) st.last_bancalinosComb1) % U32
        last_bancalinosComb2 := clean15 (m.bancalinosComb2.getD 0)
        acc_bancalinosComb2 :=
          (st.acc_bancalinosComb2 +
            diff15 (clean15 (m.bancalinosComb2.getD 0)) st.last_bancalinosComb2) % U32
        last_bancalinosTotal := clean15 (m.bancalinosTotal.getD 0)
        acc_bancalinosTotal :=
          (st.acc_bancalinosTotal +
            diff15 (clean15 (m.bancalinosTotal.getD 0)) st.last_bancalinosTotal) % U32
        last_cambioBarrera := clean15 (m.cambioBarrera.getD 0)
        acc_cambioBarrera :=
          (st.acc_cambioBarrera +
            diff15 (clean15 (m.cambioBarrera.getD 0)) st.last_cambioBarrera) % U32
        last_cambioBarreraTotal := clean15 (m.cambioBarreraTotal.getD 0)
        acc_cambioBarreraTotal :=
          (st.acc_cambioBarreraTotal +
            diff15 (clean15 (m.cambioBarreraTotal.getD 0)) st.last_cambioBarreraTotal) % U32
        last_cambioSentido := clean15 (m.cambioSentido.getD 0)
        acc_cambioSentido :=
          (st.acc_cambioSentido +
            diff15 (clean15 (m.cambioSentido.getD 0)) st.last_cambioSentido) % U32
        last_cambioSentidoTotal := clean15 (m.cambioSentidoTotal.getD 0)
        acc_cambioSentidoTotal :=
          (st.acc_cambioSentidoTotal +
            diff15 (clean15 (m.cambioSentidoTotal.getD 0)) st.last_cambioSentidoTotal) % U32
        last_cantidad := clean15 (m.cantidad.getD 0)
        acc_cantidad :=
          (st.acc_cantidad + diff15 (clean15 (m.cantidad.getD 0)) st.last_cantidad) % U32
        last_cantidad_total := clean15 (m.cantidad_total.getD 0)
        acc_cantidad_total :=
          (st.acc_cantidad_total +
            diff15 (clean15 (m.cantidad_total.getD 0)) st.last_cantidad_total) % U32
        last_paradas_1 := clean15 (m.paradas_1.getD 0)
        acc_paradas_1 :=
          (st.acc_paradas_1 + diff15 (clean15 (m.paradas_1.getD 0)) st.last_paradas_1) % U32
        last_paradas_2 := clean15 (m.paradas_2.getD 0)
        acc_paradas_2 :=
          (st.acc_paradas_2 + diff15 (clean15 (m.paradas_2.getD 0)) st.last_paradas_2) % U32
        last_timer1Hz := u16 (m.timer1Hz.getD 0)
        acc_timer1Hz :=
          (st.acc_timer1Hz + diff16 (u16 (m.timer1Hz.getD 0)) st.last_timer1Hz) % U32
        acc_tiempo_operacion_s :=
          (st.acc_tiempo_operacion_s + diff16 (u16 (m.timer1Hz.getD 0)) st.last_timer1Hz) % U32 } := by
  simp only [shStep]
  rw [if_neg (by simp [h, hs])]

theorem shStep_new (s : Int) (m : Msg) (st : SHState)
    (h : st.initialized = false ∨ st.shift ≠ s) :
    shStep s m st =
      { initialized := true
        shift := s
        last_bancalinos0 := clean15 (m.bancalinos0.getD 0)
        acc_bancalinos0 := 0
        last_bancalinos1 := clean15 (m.bancalinos1.getD 0)
        acc_bancalinos1 := 0
        last_bancalinosComb1 := clean15 (m.bancalinosComb1.getD 0)
        acc_bancalinosComb1 := 0
        last_bancalinosComb2 := clean15 (m.bancalinosComb2.getD 0)
        acc_bancalinosComb2 := 0
        last_bancalinosTotal := clean15 (m.bancalinosTotal.getD 0)
        acc_bancalinosTotal := 0
        last_cambioBarrera := clean15 (m.cambioBarrera.getD 0)
        acc_cambioBarrera := 0
        last_cambioBarreraTotal := clean15 (m.cambioBarreraTotal.getD 0)
        acc_cambioBarreraTotal := 0
        last_cambioSentido := clean15 (m.cambioSentido.getD 0)
        acc_cambioSentido := 0
        last_cambioSentidoTotal := clean15 (m.cambioSentidoTotal.getD 0)
        acc_cambioSentidoTotal := 0
        last_cantidad := clean15 (m.cantidad.getD 0)
        acc_cantidad := 0
        last_cantidad_total := clean15 (m.cantidad_total.getD 0)
        acc_cantidad_total := 0
        last_paradas_1 := clean15 (m.paradas_1.getD 0)
        acc_paradas_1 := 0
        last_paradas_2 := clean15 (m.paradas_2.getD 0)
        acc_paradas_2 := 0
        last_timer1Hz := u16 (m.timer1Hz.getD 0)
        acc_timer1Hz := 0
        acc_tiempo_operacion_s := 0 } := by
  simp only [shStep]
  rw [if_pos h]

/-- A JSON scalar appearing in a modelled `production` payload. -/
inductive JVal where
  | i (z : Int)
  | n (v : Nat)
  | b (v : Bool)
  deriving DecidableEq

/-- The JSON keys relevant to the `SalidaHornoProcessor` production payload,
including the hypothetical `bit15_corruption_` keys of the fields for which
the source emits no flag. -/
inductive SHKey where
  | maquina_id
  | turno
  | deviceType
  | lineID
  | checksum
  | bancalinos0_instantaneo
  | bancalinos0_turno
  | bancalinos1_instantaneo
  | bancalinos1_turno
  | bancalinosComb1_instantaneo
  | bancalinosComb1_turno
  | bancalinosComb2_instantaneo
  | bancalinosComb2_turno
  | bancalinosTotal_raw
  | bancalinosTotal_turno
  | cambioBarrera_instantaneo
  | cambioBarrera_turno
  | cambioBarreraTotal_raw
  | cambioBarreraTotal_turno
  | cambioSentido_instantaneo
  | cambioSentido_turno
  | cambioSentidoTotal_raw
  | cambioSentidoTotal_turno
  | cantidad_instantanea
  | cantidad_raw
  | cantidad_produccion_turno
  | cantidad_total_raw
  | cantidad_total_turno
  | paradas_1_instantaneo
  | paradas_1_turno
  | paradas_2_instantaneo
  | paradas_2_turno
  | timer1Hz_instantaneo
  | tiempo_operacion_turno_s
  | bit15_corruption_bancalinos0
  | bit15_corruption_bancalinos1
  | bit15_corruption_bancalinosComb1
  | bit15_corruption_bancalinosComb2
  | bit15_corruption_bancalinosTotal
  | bit15_corruption_cambioBarrera
  | bit15_corruption_cambioBarreraTotal
  | bit15_corruption_cambioSentido
  | bit15_corruption_cambioSentidoTotal
  | bit15_corruption_cantidad
  | bit15_corruption_cantidad_total
  | bit15_corruption_paradas_1
  | bit15_corruption_paradas_2
  deriving DecidableEq

/-- First value stored under a key in a modelled JSON object. -/
def lookupKey (k : SHKey) : List (SHKey × JVal) → Option JVal
  | [] => none
  | (k', v) :: t => if k' = k then some v else lookupKey k t

/-- The `production` JSON object built by `SalidaHornoProcessor::process`, as
the ordered list of its deterministic entries (`timestamp_device` omitted).
`st'` is the per-line state after the sample was applied. -/
def shOut (shiftNum : Int) (m : Msg) (st : SHState) : List (SHKey × JVal) :=
  let st' := shStep shiftNum m st
  [ (SHKey.maquina_id, JVal.i 7),
    (SHKey.turno, JVal.i shiftNum),
    (SHKey.deviceType, JVal.i (m.deviceType.getD 0)),
    (SHKey.lineID, JVal.i (m.lineID.getD 0)),
    (SHKey.checksum, JVal.i (m.checksum.getD 0)),
    (SHKey.bancalinos0_instantaneo, JVal.n (clean15 (m.bancalinos0.getD 0))),
    (SHKey.bancalinos0_turno, JVal.n st'.acc_bancalinos0),
    (SHKey.bancalinos1_instantaneo, JVal.n (clean15 (m.bancalinos1.getD 0))),
    (SHKey.bancalinos1_turno, JVal.n st'.acc_bancalinos1),
    (SHKey.bancalinosComb1_instantaneo, JVal.n (clean15 (m.bancalinosComb1.getD 0))),
    (SHKey.bancalinosComb1_turno, JVal.n st'.acc_bancalinosComb1),
    (SHKey.bancalinosComb2_instantaneo, JVal.n (clean15 (m.bancalinosComb2.getD 0))),
    (SHKey.bancalinosComb2_turno, JVal.n st'.acc_bancalinosComb2),
    (SHKey.bancalinosTotal_raw, JVal.i (m.bancalinosTotal.getD 0)),
    (SHKey.bancalinosTotal_turno, JVal.n st'.acc_bancalinosTotal),
    (SHKey.bit15_corruption_bancalinosTotal, JVal.b (is_corrupted (m.bancalinosTotal.getD 0))),
    (SHKey.cambioBarrera_instantaneo, JVal.n (clean15 (m.cambioBarrera.getD 0))),
    (SHKey.cambioBarrera_turno, JVal.n st'.acc_cambioBarrera),
    (SHKey.cambioBarreraTotal_raw, JVal.i (m.cambioBarreraTotal.getD 0)),
    (SHKey.cambioBarreraTotal_turno, JVal.n st'.acc_cambioBarreraTotal),
    (SHKey.bit15_corruption_cambioBarreraTotal,
      JVal.b (is_corrupted (m.cambioBarreraTotal.getD 0))),
    (SHKey.cambioSentido_instantaneo, JVal.n (clean15 (m.cambioSentido.getD 0))),
    (SHKey.cambioSentido_turno, JVal.n st'.acc_cambioSentido),
    (SHKey.cambioSentidoTotal_raw, JVal.i (m.cambioSentidoTotal.getD 0)),
    (SHKey.cambioSentidoTotal_turno, JVal.n st'.acc_cambioSentidoTotal),
    (SHKey.bit15_corruption_cambioSentidoTotal,
      JVal.b (is_corrupted (m.cambioSentidoTotal.getD 0))),
    (SHKey.cantidad_instantanea, JVal.n (clean15 (m.cantidad.getD 0))),
    (SHKey.cantidad_raw, JVal.i (m.cantidad.getD 0)),
    (SHKey.cantidad_produccion_turno, JVal.n st'.acc_cantidad),
    (SHKey.bit15_corruption_cantidad, JVal.b (is_corrupted (m.cantidad.getD 0))),
    (SHKey.cantidad_total_raw, JVal.i (m.cantidad_total.getD 0)),
    (SHKey.cantidad_total_turno, JVal.n st'.acc_cantidad_total),
    (SHKey.bit15_corruption_cantidad_total, JVal.b (is_corrupted (m.cantidad_total.getD 0))),
    (SHKey.paradas_1_instantaneo, JVal.n (clean15 (m.paradas_1.getD 0))),
    (SHKey.paradas_1_turno, JVal.n st'.acc_paradas_1),
    (SHKey.paradas_2_instantaneo, JVal.n (clean15 (m.paradas_2.getD 0))),
    (SHKey.paradas_2_turno, JVal.n st'.acc_paradas_2),
    (SHKey.timer1Hz_instantaneo, JVal.n (u16 (m.timer1Hz.getD 0))),
    (SHKey.tiempo_operacion_turno_s, JVal.n st'.acc_tiempo_operacion_s) ]

/-! ### CalidadProcessor (Quality) — per-line revision

The newest `MessageProcessor.cpp` revision keeps an
`unordered_map<int, LineState>` keyed by `lineID`, with `uint64_t` shift
buckets per line. -/

/-- Per-line state of the per-line `CalidadProcessor` revision. -/
structure CalState where
  acc_q1 : Nat := 0
  acc_q2 : Nat := 0
  acc_q6 : Nat := 0
  acc_discarded : Nat := 0
  shift : Int := -1
  initialized : Bool := false
  deriving DecidableEq

/-- Quality delta for bucket Q1 extracted from one message: the accumulated
form (`boxesQ1` present) wins over the event form (`cajaCalidad` present). -/
def calDeltaQ1 (m : Msg) : Nat :=
  if m.boxesQ1.isSome then u64 (m.boxesQ1.getD 0)
  else if m.cajaCalidad.isSome then
    (if m.cajaCalidad.getD 0 = 1 then 1 else 0)
  else 0

/-- Quality delta for bucket Q2 extracted from one message. -/
def calDeltaQ2 (m : Msg) : Nat :=
  if m.boxesQ1.isSome then u64 (m.boxesQ2.getD 0)
  else if m.cajaCalidad.isSome then
    (if m.cajaCalidad.getD 0 = 2 then 1 else 0)
  else 0

/-- Quality delta for bucket Q6 extracted from one message. -/
def calDeltaQ6 (m : Msg) : Nat :=
  if m.boxesQ1.isSome then u64 (m.boxesQ6.getD 0)
  else if m.cajaCalidad.isSome then
    (if m.cajaCalidad.getD 0 = 6 then 1 else 0)
  else 0

/-- Quality delta for the broken-pieces bucket extracted from one message
(the event form tolerates both spellings `quebrados` and `quebrado` and only
adds strictly positive values). -/
def calDeltaBroken (m : Msg) : Nat :=
  if m.boxesQ1.isSome then u64 (m.totalBroken.getD 0)
  else if m.cajaCalidad.isSome then
    (let q := if m.quebrados.isSome then m.quebrados.getD 0 else m.quebrado.getD 0
     if 0 < q then q.toNat else 0)
  else 0

/-- State transition of the per-line `CalidadProcessor::process`: wipe the
line state on the first sample or on a shift change, then add the deltas. -/
def calStep (shiftNum : Int) (m : Msg) (st : CalState) : CalState :=
  let st1 :=
    if st.initialized = false ∨ st.shift ≠ shiftNum then
      { acc_q1 := 0, acc_q2 := 0, acc_q6 := 0, acc_discarded := 0,
        shift := shiftNum, initialized := true }
    else st
  { st1 with
    acc_q1 := (st1.acc_q1 + calDeltaQ1 m) % U64
    acc_q2 := (st1.acc_q2 + calDeltaQ2 m) % U64
    acc_q6 := (st1.acc_q6 + calDeltaQ6 m) % U64
    acc_discarded := (st1.acc_discarded + calDeltaBroken m) % U64 }

theorem calStep_init (s : Int) (m : Msg) (st : CalState) :
    (calStep s m st).initialized = true ∧ (calStep s m st).shift = s := by
  simp only [calStep]
  split
  · exact ⟨rfl, rfl⟩
  · next h => exact not_reset_iff _ _ _ h

theorem calStep_same (s : Int) (m : Msg) (st : CalState)
    (h : st.initialized = true) (hs : st.shift = s) :
    calStep s m st =
      { st with
        acc_q1 := (st.acc_q1 + calDeltaQ1 m) % U64
        acc_q2 := (st.acc_q2 + calDeltaQ2 m) % U64
        acc_q6 := (st.acc_q6 + calDeltaQ6 m) % U64
        acc_discarded := (st.acc_discarded + calDeltaBroken m) % U64 } := by
  simp only [calStep]
  rw [if_neg (by simp [h, hs])]

theorem calStep_new (s : Int) (m : Msg) (st : CalState)
    (h : st.initialized = false ∨ st.shift ≠ s) :
    calStep s m st =
      { acc_q1 := calDeltaQ1 m % U64
        acc_q2 := calDeltaQ2 m % U64
        acc_q6 := calDeltaQ6 m % U64
        acc_discarded := calDeltaBroken m % U64
        shift := s
        initialized := true } := by
  simp only [calStep]
  rw [if_pos h]
  simp

/-! ### CalidadProcessor — process-global revision (`src/src/MessageProcessor.cpp`)

This revision keeps a single static set of shift buckets shared by every
line; `lineID` is only echoed into the output. -/

/-- Global state of the static-accumulator `CalidadProcessor` revision. -/
structure CalGlobalState where
  current_shift : Int
  acc_q1 : Nat := 0
  acc_q2 : Nat := 0
  acc_q6 : Nat := 0
  acc_discarded : Nat := 0
  deriving DecidableEq

/-- Published `production` payload of the global `CalidadProcessor` revision
(deterministic entries; `timestamp_device` omitted). -/
structure CalGlobalOut where
  maquina_id : Int
  shift : Int
  lineID : Int
  extra_c1 : Nat
  extra_c2 : Nat
  comercial : Nat
  quebrados : Nat
  deriving DecidableEq

/-- `CalidadProcessor::process` of the global revision: reset the shared
buckets when the shift changes, bump the bucket selected by `cajaCalidad`,
add positive `quebrados`, and publish the shared totals under the message's
`lineID`. -/
def calGlobalProcess (shift_now : Int) (m : Msg) (st : CalGlobalState) :
    CalGlobalState × CalGlobalOut :=
  let st0 :=
    if st.current_shift ≠ shift_now then
      { current_shift := shift_now, acc_q1 := 0, acc_q2 := 0, acc_q6 := 0, acc_discarded := 0 }
    else st
  let caja := m.cajaCalidad.getD 0
  let st1 :=
    if caja = 1 then { st0 with acc_q1 := (st0.acc_q1 + 1) % U64 }
    else if caja = 2 then { st0 with acc_q2 := (st0.acc_q2 + 1) % U64 }
    else if caja = 6 then { st0 with acc_q6 := (st0.acc_q6 + 1) % U64 }
    else st0
  let q := if m.quebrados.isSome then m.quebrados.getD 0 else m.quebrado.getD 0
  let st2 :=
    if 0 < q then { st1 with acc_discarded := (st1.acc_discarded + q.toNat) % U64 }
    else st1
  (st2,
    { maquina_id := 8
      shift := st2.current_shift
      lineID := m.lineID.getD 0
      extra_c1 := st2.acc_q1
      extra_c2 := st2.acc_q2
      comercial := st2.acc_q6
      quebrados := st2.acc_discarded })

/-! ### Concrete inputs used by counterexamples and witnesses -/

/-- First PH_2 sample of the C5 scenario (line 1, counter value 0). -/
def mC5a : Msg := { lineID := some 1, cantidadProductos := some 0 }

/-- Second PH_2 sample of the C5 scenario (line 1, counter value 1). -/
def mC5b : Msg := { lineID := some 1, cantidadProductos := some 1 }

/-- KilnIn sample A of the noise-spike scenario (`cantidad = 10`). -/
def mC6a : Msg := { cantidad := some 10 }

/-- KilnIn sample B of the noise-spike scenario (`cantidad = 9000`). -/
def mC6b : Msg := { cantidad := some 9000 }

/-- KilnIn sample C of the noise-spike scenario (`cantidad = 9005`). -/
def mC6c : Msg := { cantidad := some 9005 }

/-- KilnOut sample whose `bancalinos0` raw word has bit 15 set (`0x8005`). -/
def mC8 : Msg := { bancalinos0 := some 32773 }

/-- Quality event on line 2 (one Q1 box). -/
def mC9a : Msg := { lineID := some 2, cajaCalidad := some 1 }

/-- Quality message on line 1 carrying no event. -/
def mC9b : Msg := { lineID := some 1 }

/-- Fresh global Calidad state in shift 1 with empty buckets. -/
def stC9 : CalGlobalState := { current_shift := 1 }

/-! ### Claim theorems -/

/-- Claim C3: for every processor and line, when a sample arrives with the
stored shift differing from the current shift (or the line uninitialized),
every CounterField is reset before the sample is applied — afterwards every
accumulator is 0 and every `last_raw` equals the masked current reading, so
the sample contributes zero deltas.  The Quality processor owns no
CounterField; its conjunct states that its line state is wiped before the
message is applied (processing from an out-of-shift state equals processing
from a fresh line state). -/
theorem claim_C3_shift_reset :
    (∀ (s : Int) (m : Msg) (st : PH1State), st.initialized = false ∨ st.shift ≠ s →
      ((ph1Step s m st).acc_pisadas = 0 ∧ (ph1Step s m st).acc_prod_time_ds = 0 ∧
       (ph1Step s m st).acc_paradas = 0 ∧ (ph1Step s m st).acc_tiempo_paradas_s = 0 ∧
       (ph1Step s m st).last_contador15 = clean15 (m.cantidadProductos.getD 0) ∧
       (ph1Step s m st).last_raw_prod_time = u16 (m.tiempoProduccion_ds.getD 0) ∧
       (ph1Step s m st).last_paradas15 = clean15 (m.paradas.getD 0) ∧
       (ph1Step s m st).last_tiempo_paradas15 = clean15 (m.tiempoParadas_s.getD 0))) ∧
    (∀ (s : Int) (m : Msg) (st : PH2State), st.initialized = false ∨ st.shift ≠ s →
      ((ph2Step s m st).acc_pisadas = 0 ∧ (ph2Step s m st).acc_prod_time_ds = 0 ∧
       (ph2Step s m st).acc_paradas = 0 ∧ (ph2Step s m st).acc_tiempo_paradas_s = 0 ∧
       (ph2Step s m st).last_contador15 = clean15 (m.cantidadProductos.getD 0) ∧
       (ph2Step s m st).last_raw_prod_time = u16 (m.tiempoProduccion_ds.getD 0) ∧
       (ph2Step s m st).last_paradas15 = clean15 (m.paradas.getD 0) ∧
       (ph2Step s m st).last_tiempo_paradas15 = clean15 (m.tiempoParadas_s.getD 0))) ∧
    (∀ (s : Int) (m : Msg) (st : ESState), st.initialized = false ∨ st.shift ≠ s →
      ((esStep s m st).acc_arranques = 0 ∧ (esStep s m st).acc_t_operacion_s = 0 ∧
       (esStep s m st).last_arranques = clean15 (m.arranques.getD 0) ∧
       (esStep s m st).last_t_operacion = clean15 (m.tiempoOperacion_s.getD 0))) ∧
    (∀ (s : Int) (m : Msg) (st : SSState), st.initialized = false ∨ st.shift ≠ s →
      ((ssStep s m st).acc_prod_q = 0 ∧ (ssStep s m st).acc_stop_q = 0 ∧
       (ssStep s m st).acc_prod_t_ds = 0 ∧ (ssStep s m st).acc_stop_t_s = 0 ∧
       (ssStep s m st).last_prod_q15 = clean15 (m.cantidadProductos.getD 0) ∧
       (ssStep s m st).last_stop_q15 = clean15 (m.paradas.getD 0) ∧
       (ssStep s m st).last_raw_prod_t = u16 (m.tiempoProduccion_ds.getD 0) ∧
       (ssStep s m st).last_stop_t15 = clean15 (m.tiempoParadas_s.getD 0))) ∧
    (∀ (s : Int) (m : Msg) (st : EsmState), st.initialized = false ∨ st.shift ≠ s →
      ((esmStep s m st).acc_prod_q = 0 ∧ (esmStep s m st).acc_stop_q = 0 ∧
       (esmStep s m st).acc_prod_t_ds = 0 ∧ (esmStep s m st).acc_stop_t_s = 0 ∧
       (esmStep s m st).last_raw_prod_q = u16 (m.cantidadProductos.getD 0) ∧
       (esmStep s m st).last_raw_stop_q = u16 (m.paradas.getD 0) ∧
       (esmStep s m st).last_raw_prod_t = u16 (m.tiempoProduccion_ds.getD 0) ∧
       (esmStep s m st).last_raw_stop_t = u16 (m.tiempoParadas_s.getD 0))) ∧
    (∀ (s : Int) (m : Msg) (st : EHState), st.initialized = false ∨ st.shift ≠ s →
      ((ehStep s m st).acc_prod_q = 0 ∧ (ehStep s m st).acc_stop_q = 0 ∧
       (ehStep s m st).acc_falla_q = 0 ∧ (ehStep s m st).acc_prod_t_ds = 0 ∧
       (ehStep s m st).acc_stop_t_s = 0 ∧ (ehStep s m st).acc_falla_t_s = 0 ∧
       (ehStep s m st).last_raw_prod_q = clean15 (m.cantidad.getD 0) ∧
       (ehStep s m st).last_raw_stop_q = clean15 (m.paradas.getD 0) ∧
       (ehStep s m st).last_raw_falla_q = clean15 (m.fallaHorno.getD 0) ∧
       (ehStep s m st).last_raw_prod_t = clean15 (m.tiempoProd_ds.getD 0) ∧
       (ehStep s m st).last_raw_stop_t = clean15 (m.tiempoParadas_s.getD 0) ∧
       (ehStep s m st).last_raw_falla_t = clean15 (m.tiempoFalla_s.getD 0))) ∧
    (∀ (s : Int) (m : Msg) (st : SHState), st.initialized = false ∨ st.shift ≠ s →
      ((shStep s m st).acc_bancalinos0 = 0 ∧ (shStep s m st).acc_bancalinos1 = 0 ∧
       (shStep s m st).acc_bancalinosComb1 = 0 ∧ (shStep s m st).acc_bancalinosComb2 = 0 ∧
       (shStep s m st).acc_bancalinosTotal = 0 ∧ (shStep s m st).acc_cambioBarrera = 0 ∧
       (shStep s m st).acc_cambioBarreraTotal = 0 ∧ (shStep s m st).acc_cambioSentido = 0 ∧
       (shStep s m st).acc_cambioSentidoTotal = 0 ∧ (shStep s m st).acc_cantidad = 0 ∧
       (shStep s m st).acc_cantidad_total = 0 ∧ (shStep s m st).acc_paradas_1 = 0 ∧
       (shStep s m st).acc_paradas_2 = 0 ∧ (shStep s m st).acc_timer1Hz = 0 ∧
       (shStep s m st).acc_tiempo_operacion_s = 0 ∧
       (shStep s m st).last_bancalinos0 = clean15 (m.bancalinos0.getD 0) ∧
       (shStep s m st).last_bancalinos1 = clean15 (m.bancalinos1.getD 0) ∧
       (shStep s m st).last_bancalinosComb1 = clean15 (m.bancalinosComb1.getD 0) ∧
       (shStep s m st).last_bancalinosComb2 = clean15 (m.bancalinosComb2.getD 0) ∧
       (shStep s m st).last_bancalinosTotal = clean15 (m.bancalinosTotal.getD 0) ∧
       (shStep s m st).last_cambioBarrera = clean15 (m.cambioBarrera.getD 0) ∧
       (shStep s m st).last_cambioBarreraTotal = clean15 (m.cambioBarreraTotal.getD 0) ∧
       (shStep s m st).last_cambioSentido = clean15 (m.cambioSentido.getD 0) ∧
       (shStep s m st).last_cambioSentidoTotal = clean15 (m.cambioSentidoTotal.getD 0) ∧
       (shStep s m st).last_cantidad = clean15 (m.cantidad.getD 0) ∧
       (shStep s m st).last_cantidad_total = clean15 (m.cantidad_total.getD 0) ∧
       (shStep s m st).last_paradas_1 = clean15 (m.paradas_1.getD 0) ∧
       (shStep s m st).last_paradas_2 = clean15 (m.paradas_2.getD 0) ∧
       (shStep s m st).last_timer1Hz = u16 (m.timer1Hz.getD 0))) ∧
    (∀ (s : Int) (m : Msg) (st : CalState), st.initialized = false ∨ st.shift ≠ s →
      calStep s m st = calStep s m {}) := by
  refine ⟨?_, ?_, ?_, ?_, ?_, ?_, ?_, ?_⟩
  · intro s m st h
    rw [ph1Step_new s m st h]
    repeat' apply And.intro
    all_goals rfl
  · intro s m st h
    rw [ph2Step_new s m st h]
    repeat' apply And.intro
    all_goals rfl
  · intro s m st h
    rw [esStep_new s m st h]
    repeat' apply And.intro
    all_goals rfl
  · intro s m st h
    rw [ssStep_new s m st h]
    repeat' apply And.intro
    all_goals rfl
  · intro s m st h
    rw [esmStep_new s m st h]
    repeat' apply And.intro
    all_goals rfl
  · intro s m st h
    rw [ehStep_new s m st h]
    repeat' apply And.intro
    all_goals rfl
  · intro s m st h
    rw [shStep_new s m st h]
    repeat' apply And.intro
    all_goals rfl
  · intro s m st h
    rw [calStep_new s m st h, calStep_new s m {} (Or.inl rfl)]

/-- Witness for claim C3: the reset conjunct evaluated on a fresh PH_1 line
with an arbitrary first sample. -/
theorem claim_C3_shift_reset_witness :
    (({} : PH1State).initialized = false ∨ ({} : PH1State).shift ≠ 1) ∧
    (ph1Step 1 mC5b {}).acc_pisadas = 0 ∧
    (ph1Step 1 mC5b {}).last_contador15 = clean15 (mC5b.cantidadProductos.getD 0) := by
  refine ⟨Or.inl rfl, ?_, ?_⟩
  · exact (claim_C3_shift_reset.1 1 mC5b {} (Or.inl rfl)).1
  · exact (claim_C3_shift_reset.1 1 mC5b {} (Or.inl rfl)).2.2.2.2.1

/-- Claim C5 counterexample: on line 1 (factor 3) the PH_2 processor
publishes `cantidadProductos_turno = 6` for `cantidadPisadas_turno = 1`,
which differs from `pisadas × factor(lineID) = 3`. -/
theorem claim_C5_factor_counterexample :
    ((ph2Process 1 mC5b (ph2Step 1 mC5a {})).2).cantidadPisadas_turno = 1 ∧
    ((ph2Process 1 mC5b (ph2Step 1 mC5a {})).2).cantidadProductos_turno = 6 ∧
    factor_pisadas 1 = 3 ∧
    ((ph2Process 1 mC5b (ph2Step 1 mC5a {})).2).cantidadProductos_turno ≠
      (((ph2Process 1 mC5b (ph2Step 1 mC5a {})).2).cantidadPisadas_turno *
        (factor_pisadas 1).toNat) % U32 := by
  refine ⟨rfl, rfl, rfl, ?_⟩
  decide

/-- Claim C5 as amended: PH_1 publishes
`cantidadProductos_turno = cantidadPisadas_turno × factor(lineID)` with the
closed mapping {1↦3, 2↦3, 3↦2, 4↦4, 5↦2, otherwise↦3}, while PH_2 multiplies
by the constant `PIEZAS_PISADA = 6` for every line (both products reduced
modulo 2^32 by the `uint32_t` arithmetic). -/
theorem claim_C5_products_factor :
    (∀ (s : Int) (m : Msg) (st : PH1State),
      ((ph1Process s m st).2).cantidadProductos_turno =
        (((ph1Process s m st).2).cantidadPisadas_turno *
          (factor_pisadas (m.lineID.getD 0)).toNat) % U32) ∧
    (∀ l : Int, factor_pisadas l =
      if l = 1 then 3 else if l = 2 then 3 else if l = 3 then 2
      else if l = 4 then 4 else if l = 5 then 2 else 3) ∧
    (∀ (s : Int) (m : Msg) (st : PH2State),
      ((ph2Process s m st).2).cantidadProductos_turno =
        (((ph2Process s m st).2).cantidadPisadas_turno * PIEZAS_PISADA.toNat) % U32) ∧
    PIEZAS_PISADA = 6 := by
  refine ⟨fun s m st => rfl, fun l => rfl, fun s m st => rfl, rfl⟩

/-- Claim C6 counterexample: starting from a fresh KilnIn line inside one
shift, after A (`cantidad = 10`) and the spike B (`cantidad = 9000`) the
`cantidad` accumulator is 0 — not 10 as claimed — because A is the
initializing sample and contributes nothing. -/
theorem claim_C6_kiln_counterexample :
    (ehStep 1 mC6b (ehStep 1 mC6a {})).acc_prod_q = 0 ∧
    (ehStep 1 mC6b (ehStep 1 mC6a {})).acc_prod_q ≠ 10 := by
  exact ⟨rfl, by decide⟩

/-- Claim C6 as amended: in the fresh-state KilnIn scenario A initializes the
line (accumulator 0, `last_raw = 10`); the spike B is rejected by
`safe_delta` with bound 200, leaving the accumulator at 0 while `last_raw`
advances to 9000; the following C contributes delta 5, making the
accumulator 5. -/
theorem claim_C6_kiln_scenario :
    (ehStep 1 mC6a ({} : EHState)).acc_prod_q = 0 ∧
    (ehStep 1 mC6a ({} : EHState)).last_raw_prod_q = 10 ∧
    (ehStep 1 mC6b (ehStep 1 mC6a {})).acc_prod_q = 0 ∧
    (ehStep 1 mC6b (ehStep 1 mC6a {})).last_raw_prod_q = 9000 ∧
    (ehStep 1 mC6c (ehStep 1 mC6b (ehStep 1 mC6a {}))).acc_prod_q = 5 ∧
    (ehStep 1 mC6c (ehStep 1 mC6b (ehStep 1 mC6a {}))).last_raw_prod_q = 9005 := by
  decide

/-- Claim C8 counterexample: a KilnOut sample whose raw `bancalinos0` word is
`0x8005` (bit 15 set) produces a payload with no
`bit15_corruption_bancalinos0` key at all. -/
theorem claim_C8_corruption_counterexample :
    lookupKey SHKey.bit15_corruption_bancalinos0 (shOut 1 mC8 {}) = none ∧
    is_corrupted (mC8.bancalinos0.getD 0) = true := by
  exact ⟨rfl, by decide⟩

/-- Claim C8 as amended: KilnOut emits `bit15_corruption_` keys only for
`bancalinosTotal`, `cambioBarreraTotal`, `cambioSentidoTotal`, `cantidad`
and `cantidad_total` — each true iff bit 15 of the raw input is set — and no
such key for its other eight 15-bit fields; PH_1 and PH_2 emit the flag,
with the same meaning, for each of their three 15-bit fields. -/
theorem claim_C8_corruption_flags (s : Int) (m : Msg) (stSH : SHState)
    (stP1 : PH1State) (stP2 : PH2State) :
    lookupKey SHKey.bit15_corruption_bancalinosTotal (shOut s m stSH) =
      some (JVal.b (is_corrupted (m.bancalinosTotal.getD 0))) ∧
    lookupKey SHKey.bit15_corruption_cambioBarreraTotal (shOut s m stSH) =
      some (JVal.b (is_corrupted (m.cambioBarreraTotal.getD 0))) ∧
    lookupKey SHKey.bit15_corruption_cambioSentidoTotal (shOut s m stSH) =
      some (JVal.b (is_corrupted (m.cambioSentidoTotal.getD 0))) ∧
    lookupKey SHKey.bit15_corruption_cantidad (shOut s m stSH) =
      some (JVal.b (is_corrupted (m.cantidad.getD 0))) ∧
    lookupKey SHKey.bit15_corruption_cantidad_total (shOut s m stSH) =
      some (JVal.b (is_corrupted (m.cantidad_total.getD 0))) ∧
    lookupKey SHKey.bit15_corruption_bancalinos0 (shOut s m stSH) = none ∧
    lookupKey SHKey.bit15_corruption_bancalinos1 (shOut s m stSH) = none ∧
    lookupKey SHKey.bit15_corruption_bancalinosComb1 (shOut s m stSH) = none ∧
    lookupKey SHKey.bit15_corruption_bancalinosComb2 (shOut s m stSH) = none ∧
    lookupKey SHKey.bit15_corruption_cambioBarrera (shOut s m stSH) = none ∧
    lookupKey SHKey.bit15_corruption_cambioSentido (shOut s m stSH) = none ∧
    lookupKey SHKey.bit15_corruption_paradas_1 (shOut s m stSH) = none ∧
    lookupKey SHKey.bit15_corruption_paradas_2 (shOut s m stSH) = none ∧
    ((ph1Process s m stP1).2).bit15_corruption_cantidadProductos =
      is_corrupted (m.cantidadProductos.getD 0) ∧
    ((ph1Process s m stP1).2).bit15_corruption_paradas = is_corrupted (m.paradas.getD 0) ∧
    ((ph1Process s m stP1).2).bit15_corruption_tiempoParadas =
      is_corrupted (m.tiempoParadas_s.getD 0) ∧
    ((ph2Process s m stP2).2).bit15_corruption_cantidadProductos =
      is_corrupted (m.cantidadProductos.getD 0) ∧
    ((ph2Process s m stP2).2).bit15_corruption_paradas = is_corrupted (m.paradas.getD 0) ∧
    ((ph2Process s m stP2).2).bit15_corruption_tiempoParadas =
      is_corrupted (m.tiempoParadas_s.getD 0) := by
  repeat' apply And.intro
  all_goals rfl

/-- Claim C9, failing input for the process-global `CalidadProcessor` of
`src/src/MessageProcessor.cpp`: a Quality event on line 2 mutates the single
shared bucket set, and the very next Quality message on line 1 publishes
`extra_c1 = 1` for line 1 even though line 1 never saw a Q1 box.  The claim
(per-line isolation) is right and this revision of the code violates it. -/
theorem claim_C9_global_calidad_bug :
    ((calGlobalProcess 1 mC9a stC9).1).acc_q1 = 1 ∧
    ((calGlobalProcess 1 mC9b ((calGlobalProcess 1 mC9a stC9).1)).2).lineID = 1 ∧
    ((calGlobalProcess 1 mC9b ((calGlobalProcess 1 mC9a stC9).1)).2).extra_c1 = 1 := by
  decide

/-- Quality event-form message used by the C7 witness. -/
def mC7e : Msg := { cajaCalidad := some 1 }

/-- Initialized Quality line state in shift 1 with empty buckets. -/
def stC7 : CalState := { shift := 1, initialized := true }

/-- Quality accumulated-form message used by the C10 witness. -/
def mC10 : Msg :=
  { boxesQ1 := some 4, boxesQ2 := some 0, boxesQ6 := some 1,
    totalBroken := some 2, cajaCalidad := some 6 }

/-- Claim C7: Quality contributions are deltas, not snapshots.  Replaying the
same event-form message (`cajaCalidad ∈ {1, 2, 6}`) twice inside one shift
adds exactly 2 to the matching bucket, and replaying the same
accumulated-form message twice adds each of its field values twice. -/
theorem claim_C7_quality_deltas :
    (∀ (s : Int) (m : Msg) (st : CalState), m.boxesQ1 = none → m.cajaCalidad = some 1 →
      st.initialized = true → st.shift = s → st.acc_q1 + 2 < U64 →
      (calStep s m (calStep s m st)).acc_q1 = st.acc_q1 + 2) ∧
    (∀ (s : Int) (m : Msg) (st : CalState), m.boxesQ1 = none → m.cajaCalidad = some 2 →
      st.initialized = true → st.shift = s → st.acc_q2 + 2 < U64 →
      (calStep s m (calStep s m st)).acc_q2 = st.acc_q2 + 2) ∧
    (∀ (s : Int) (m : Msg) (st : CalState), m.boxesQ1 = none → m.cajaCalidad = some 6 →
      st.initialized = true → st.shift = s → st.acc_q6 + 2 < U64 →
      (calStep s m (calStep s m st)).acc_q6 = st.acc_q6 + 2) ∧
    (∀ (s : Int) (m : Msg) (st : CalState), m.boxesQ1.isSome = true →
      st.initialized = true → st.shift = s →
      st.acc_q1 + 2 * u64 (m.boxesQ1.getD 0) < U64 →
      st.acc_q2 + 2 * u64 (m.boxesQ2.getD 0) < U64 →
      st.acc_q6 + 2 * u64 (m.boxesQ6.getD 0) < U64 →
      st.acc_discarded + 2 * u64 (m.totalBroken.getD 0) < U64 →
      ((calStep s m (calStep s m st)).acc_q1 = st.acc_q1 + 2 * u64 (m.boxesQ1.getD 0) ∧
       (calStep s m (calStep s m st)).acc_q2 = st.acc_q2 + 2 * u64 (m.boxesQ2.getD 0) ∧
       (calStep s m (calStep s m st)).acc_q6 = st.acc_q6 + 2 * u64 (m.boxesQ6.getD 0) ∧
       (calStep s m (calStep s m st)).acc_discarded =
         st.acc_discarded + 2 * u64 (m.totalBroken.getD 0))) := by
  refine ⟨?_, ?_, ?_, ?_⟩
  · intro s m st hb hc hi hs hov
    have hd : calDeltaQ1 m = 1 := by simp [calDeltaQ1, hb, hc]
    have hi1 := calStep_init s m st
    have e1 : (calStep s m st).acc_q1 = (st.acc_q1 + 1) % U64 := by
      rw [calStep_same s m st hi hs, hd]
    have e2 : (calStep s m (calStep s m st)).acc_q1 = ((calStep s m st).acc_q1 + 1) % U64 := by
      rw [calStep_same s m (calStep s m st) hi1.1 hi1.2, hd]
    rw [e2, e1]
    unfold U64 at hov ⊢
    omega
  · intro s m st hb hc hi hs hov
    have hd : calDeltaQ2 m = 1 := by simp [calDeltaQ2, hb, hc]
    have hi1 := calStep_init s m st
    have e1 : (calStep s m st).acc_q2 = (st.acc_q2 + 1) % U64 := by
      rw [calStep_same s m st hi hs, hd]
    have e2 : (calStep s m (calStep s m st)).acc_q2 = ((calStep s m st).acc_q2 + 1) % U64 := by
      rw [calStep_same s m (calStep s m st) hi1.1 hi1.2, hd]
    rw [e2, e1]
    unfold U64 at hov ⊢
    omega
  · intro s m st hb hc hi hs hov
    have hd : calDeltaQ6 m = 1 := by simp [calDeltaQ6, hb, hc]
    have hi1 := calStep_init s m st
    have e1 : (calStep s m st).acc_q6 = (st.acc_q6 + 1) % U64 := by
      rw [calStep_same s m st hi hs, hd]
    have e2 : (calStep s m (calStep s m st)).acc_q6 = ((calStep s m st).acc_q6 + 1) % U64 := by
      rw [calStep_same s m (calStep s m st) hi1.1 hi1.2, hd]
    rw [e2, e1]
    unfold U64 at hov ⊢
    omega
  · intro s m st hb hi hs hov1 hov2 hov6 hovd
    have hd1 : calDeltaQ1 m = u64 (m.boxesQ1.getD 0) := by simp [calDeltaQ1, hb]
    have hd2 : calDeltaQ2 m = u64 (m.boxesQ2.getD 0) := by simp [calDeltaQ2, hb]
    have hd6 : calDeltaQ6 m = u64 (m.boxesQ6.getD 0) := by simp [calDeltaQ6, hb]
    have hdb : calDeltaBroken m = u64 (m.totalBroken.getD 0) := by simp [calDeltaBroken, hb]
    have hi1 := calStep_init s m st
    refine ⟨?_, ?_, ?_, ?_⟩
    · have e1 : (calStep s m st).acc_q1 = (st.acc_q1 + u64 (m.boxesQ1.getD 0)) % U64 := by
        rw [calStep_same s m st hi hs, hd1]
      have e2 : (calStep s m (calStep s m st)).acc_q1 =
          ((calStep s m st).acc_q1 + u64 (m.boxesQ1.getD 0)) % U64 := by
        rw [calStep_same s m (calStep s m st) hi1.1 hi1.2, hd1]
      rw [e2, e1]
      unfold U64 at hov1 ⊢
      omega
    · have e1 : (calStep s m st).acc_q2 = (st.acc_q2 + u64 (m.boxesQ2.getD 0)) % U64 := by
        rw [calStep_same s m st hi hs, hd2]
      have e2 : (calStep s m (calStep s m st)).acc_q2 =
          ((calStep s m st).acc_q2 + u64 (m.boxesQ2.getD 0)) % U64 := by
        rw [calStep_same s m (calStep s m st) hi1.1 hi1.2, hd2]
      rw [e2, e1]
      unfold U64 at hov2 ⊢
      omega
    · have e1 : (calStep s m st).acc_q6 = (st.acc_q6 + u64 (m.boxesQ6.getD 0)) % U64 := by
        rw [calStep_same s m st hi hs, hd6]
      have e2 : (calStep s m (calStep s m st)).acc_q6 =
          ((calStep s m st).acc_q6 + u64 (m.boxesQ6.getD 0)) % U64 := by
        rw [calStep_same s m (calStep s m st) hi1.1 hi1.2, hd6]
      rw [e2, e1]
      unfold U64 at hov6 ⊢
      omega
    · have e1 : (calStep s m st).acc_discarded =
          (st.acc_discarded + u64 (m.totalBroken.getD 0)) % U64 := by
        rw [calStep_same s m st hi hs, hdb]
      have e2 : (calStep s m (calStep s m st)).acc_discarded =
          ((calStep s m st).acc_discarded + u64 (m.totalBroken.getD 0)) % U64 := by
        rw [calStep_same s m (calStep s m st) hi1.1 hi1.2, hdb]
      rw [e2, e1]
      unfold U64 at hovd ⊢
      omega

/-- Witness for claim C7: replaying one Q1 event on an initialized empty
Quality line yields bucket value 2. -/
theorem claim_C7_quality_deltas_witness :
    mC7e.boxesQ1 = none ∧ mC7e.cajaCalidad = some 1 ∧ stC7.initialized = true ∧
    stC7.shift = 1 ∧ stC7.acc_q1 + 2 < U64 ∧
    (calStep 1 mC7e (calStep 1 mC7e stC7)).acc_q1 = stC7.acc_q1 + 2 := by
  refine ⟨rfl, rfl, rfl, rfl, by decide, ?_⟩
  exact claim_C7_quality_deltas.1 1 mC7e stC7 rfl rfl rfl rfl (by decide)

/-- Claim C10: in the Quality processor the accumulated form wins — when
`boxesQ1` is present the four accumulated fields are the deltas and the
event-form keys are ignored; the event interpretation applies only when
`boxesQ1` is absent and `cajaCalidad` present; a message with neither key
adds nothing to any bucket. -/
theorem claim_C10_quality_precedence :
    (∀ m : Msg, m.boxesQ1.isSome = true →
      (calDeltaQ1 m = u64 (m.boxesQ1.getD 0) ∧
       calDeltaQ2 m = u64 (m.boxesQ2.getD 0) ∧
       calDeltaQ6 m = u64 (m.boxesQ6.getD 0) ∧
       calDeltaBroken m = u64 (m.totalBroken.getD 0))) ∧
    (∀ m : Msg, m.boxesQ1 = none → m.cajaCalidad.isSome = true →
      (calDeltaQ1 m = (if m.cajaCalidad.getD 0 = 1 then 1 else 0) ∧
       calDeltaQ2 m = (if m.cajaCalidad.getD 0 = 2 then 1 else 0) ∧
       calDeltaQ6 m = (if m.cajaCalidad.getD 0 = 6 then 1 else 0))) ∧
    (∀ m : Msg, m.boxesQ1 = none → m.cajaCalidad = none →
      (calDeltaQ1 m = 0 ∧ calDeltaQ2 m = 0 ∧ calDeltaQ6 m = 0 ∧ calDeltaBroken m = 0)) ∧
    (∀ (s : Int) (m : Msg) (st : CalState), m.boxesQ1 = none → m.cajaCalidad = none →
      st.initialized = true → st.shift = s →
      st.acc_q1 < U64 → st.acc_q2 < U64 → st.acc_q6 < U64 → st.acc_discarded < U64 →
      calStep s m st = st) := by
  refine ⟨?_, ?_, ?_, ?_⟩
  · intro m h
    exact ⟨by simp [calDeltaQ1, h], by simp [calDeltaQ2, h],
           by simp [calDeltaQ6, h], by simp [calDeltaBroken, h]⟩
  · intro m h1 h2
    exact ⟨by simp [calDeltaQ1, h1, h2], by simp [calDeltaQ2, h1, h2],
           by simp [calDeltaQ6, h1, h2]⟩
  · intro m h1 h2
    exact ⟨by simp [calDeltaQ1, h1, h2], by simp [calDeltaQ2, h1, h2],
           by simp [calDeltaQ6, h1, h2], by simp [calDeltaBroken, h1, h2]⟩
  · intro s m st h1 h2 hi hs hq1 hq2 hq6 hqd
    have d1 : calDeltaQ1 m = 0 := by simp [calDeltaQ1, h1, h2]
    have d2 : calDeltaQ2 m = 0 := by simp [calDeltaQ2, h1, h2]
    have d6 : calDeltaQ6 m = 0 := by simp [calDeltaQ6, h1, h2]
    have db : calDeltaBroken m = 0 := by simp [calDeltaBroken, h1, h2]
    rw [calStep_same s m st hi hs, d1, d2, d6, db]
    simp only [Nat.add_zero]
    rw [Nat.mod_eq_of_lt hq1, Nat.mod_eq_of_lt hq2, Nat.mod_eq_of_lt hq6,
        Nat.mod_eq_of_lt hqd]

/-- Witness for claim C10: a message carrying both forms takes its deltas
from the accumulated fields. -/
theorem claim_C10_quality_precedence_witness :
    mC10.boxesQ1.isSome = true ∧ calDeltaQ1 mC10 = u64 (mC10.boxesQ1.getD 0) := by
  exact ⟨rfl, (claim_C10_quality_precedence.1 mC10 rfl).1⟩

/-- The member `safe_delta_u16` in terms of the candidate delta: accept iff
the candidate is within the bound (a zero candidate is returned unchanged). -/
theorem safe_delta_u16_eq (p c M : Nat) :
    safe_delta_u16 p c M = if M < diff16 c p then 0 else diff16 c p := by
  simp only [safe_delta_u16]
  split_ifs <;> omega

/-- The header `safe_delta_u16` agrees with the same accept-or-zero reading
whenever both operands are genuine `uint16_t` values and the bound is
non-negative. -/
theorem safe_delta_u16_hdr_eq (p c : Nat) (M : Int) (hp : p < 65536) (hc : c < 65536)
    (hM : 0 ≤ M) :
    safe_delta_u16_hdr p c M = if M.toNat < diff16 c p then 0 else diff16 c p := by
  simp only [safe_delta_u16_hdr, diff16]
  split_ifs <;> omega

/-- Initialized DryerIn line state used by the C4 witness. -/
def stC4 : ESState := { initialized := true, shift := 1 }

/-- DryerIn sample whose `arranques` delta 200 exceeds the bound 100. -/
def mC4 : Msg := { arranques := some 200 }

/-- Claim C4: for every signal guarded by `safe_delta` with bound `M`, inside
one shift a candidate delta above `M` leaves the accumulator unchanged while
`last_raw` still advances to the new masked reading, and a candidate in
`[0, M]` is added to the accumulator.  Signals: DryerIn `arranques` (100) and
`tiempoOperacion_s` (30); Glaze `cantidadProductos`, `paradas`,
`tiempoProduccion_ds`, `tiempoParadas_s` (all 200, raw 16-bit words); KilnIn
`cantidad` (200), `paradas` (50), `fallaHorno` (20), `tiempoProd_ds` (250),
`tiempoParadas_s` (30), `tiempoFalla_s` (30). -/
theorem claim_C4_safe_delta :
    (∀ (s : Int) (m : Msg) (st : ESState), st.initialized = true → st.shift = s →
      st.acc_arranques < U32 →
      ((100 < diff16 (clean15 (m.arranques.getD 0)) st.last_arranques →
          (esStep s m st).acc_arranques = st.acc_arranques) ∧
       (diff16 (clean15 (m.arranques.getD 0)) st.last_arranques ≤ 100 →
          st.acc_arranques + diff16 (clean15 (m.arranques.getD 0)) st.last_arranques < U32 →
          (esStep s m st).acc_arranques =
            st.acc_arranques + diff16 (clean15 (m.arranques.getD 0)) st.last_arranques) ∧
       (esStep s m st).last_arranques = clean15 (m.arranques.getD 0))) ∧
    (∀ (s : Int) (m : Msg) (st : ESState), st.initialized = true → st.shift = s →
      st.acc_t_operacion_s < U32 →
      ((30 < diff16 (clean15 (m.tiempoOperacion_s.getD 0)) st.last_t_operacion →
          (esStep s m st).acc_t_operacion_s = st.acc_t_operacion_s) ∧
       (diff16 (clean15 (m.tiempoOperacion_s.getD 0)) st.last_t_operacion ≤ 30 →
          st.acc_t_operacion_s +
            diff16 (clean15 (m.tiempoOperacion_s.getD 0)) st.last_t_operacion < U32 →
          (esStep s m st).acc_t_operacion_s =
            st.acc_t_operacion_s +
              diff16 (clean15 (m.tiempoOperacion_s.getD 0)) st.last_t_operacion) ∧
       (esStep s m st).last_t_operacion = clean15 (m.tiempoOperacion_s.getD 0))) ∧
    (∀ (s : Int) (m : Msg) (st : EsmState), st.initialized = true → st.shift = s →
      st.last_raw_prod_q < 65536 → st.acc_prod_q < U32 →
      ((200 < diff16 (u16 (m.cantidadProductos.getD 0)) st.last_raw_prod_q →
          (esmStep s m st).acc_prod_q = st.acc_prod_q) ∧
       (diff16 (u16 (m.cantidadProductos.getD 0)) st.last_raw_prod_q ≤ 200 →
          st.acc_prod_q + diff16 (u16 (m.cantidadProductos.getD 0)) st.last_raw_prod_q < U32 →
          (esmStep s m st).acc_prod_q =
            st.acc_prod_q + diff16 (u16 (m.cantidadProductos.getD 0)) st.last_raw_prod_q) ∧
       (esmStep s m st).last_raw_prod_q = u16 (m.cantidadProductos.getD 0))) ∧
    (∀ (s : Int) (m : Msg) (st : EsmState), st.initialized = true → st.shift = s →
      st.last_raw_stop_q < 65536 → st.acc_stop_q < U32 →
      ((200 < diff16 (u16 (m.paradas.getD 0)) st.last_raw_stop_q →
          (esmStep s m st).acc_stop_q = st.acc_stop_q) ∧
       (diff16 (u16 (m.paradas.getD 0)) st.last_raw_stop_q ≤ 200 →
          st.acc_stop_q + diff16 (u16 (m.paradas.getD 0)) st.last_raw_stop_q < U32 →
          (esmStep s m st).acc_stop_q =
            st.acc_stop_q + diff16 (u16 (m.paradas.getD 0)) st.last_raw_stop_q) ∧
       (esmStep s m st).last_raw_stop_q = u16 (m.paradas.getD 0))) ∧
    (∀ (s : Int) (m : Msg) (st : EsmState), st.initialized = true → st.shift = s →
      st.last_raw_prod_t < 65536 →
      ((200 < diff16 (u16 (m.tiempoProduccion_ds.getD 0)) st.last_raw_prod_t →
          (esmStep s m st).acc_prod_t_ds = st.acc_prod_t_ds) ∧
       (diff16 (u16 (m.tiempoProduccion_ds.getD 0)) st.last_raw_prod_t ≤ 200 →
          (esmStep s m st).acc_prod_t_ds =
            st.acc_prod_t_ds + diff16 (u16 (m.tiempoProduccion_ds.getD 0)) st.last_raw_prod_t) ∧
       (esmStep s m st).last_raw_prod_t = u16 (m.tiempoProduccion_ds.getD 0))) ∧
    (∀ (s : Int) (m : Msg) (st : EsmState), st.initialized = true → st.shift = s →
      st.last_raw_stop_t < 65536 → st.acc_stop_t_s < U32 →
      ((200 < diff16 (u16 (m.tiempoParadas_s.getD 0)) st.last_raw_stop_t →
          (esmStep s m st).acc_stop_t_s = st.acc_stop_t_s) ∧
       (diff16 (u16 (m.tiempoParadas_s.getD 0)) st.last_raw_stop_t ≤ 200 →
          st.acc_stop_t_s + diff16 (u16 (m.tiempoParadas_s.getD 0)) st.last_raw_stop_t < U32 →
          (esmStep s m st).acc_stop_t_s =
            st.acc_stop_t_s + diff16 (u16 (m.tiempoParadas_s.getD 0)) st.last_raw_stop_t) ∧
       (esmStep s m st).last_raw_stop_t = u16 (m.tiempoParadas_s.getD 0))) ∧
    (∀ (s : Int) (m : Msg) (st : EHState), st.initialized = true → st.shift = s →
      st.acc_prod_q < U32 →
      ((200 < diff16 (clean15 (m.cantidad.getD 0)) st.last_raw_prod_q →
          (ehStep s m st).acc_prod_q = st.acc_prod_q) ∧
       (diff16 (clean15 (m.cantidad.getD 0)) st.last_raw_prod_q ≤ 200 →
          st.acc_prod_q + diff16 (clean15 (m.cantidad.getD 0)) st.last_raw_prod_q < U32 →
          (ehStep s m st).acc_prod_q =
            st.acc_prod_q + diff16 (clean15 (m.cantidad.getD 0)) st.last_raw_prod_q) ∧
       (ehStep s m st).last_raw_prod_q = clean15 (m.cantidad.getD 0))) ∧
    (∀ (s : Int) (m : Msg) (st : EHState), st.initialized = true → st.shift = s →
      st.acc_stop_q < U32 →
      ((50 < diff16 (clean15 (m.paradas.getD 0)) st.last_raw_stop_q →
          (ehStep s m st).acc_stop_q = st.acc_stop_q) ∧
       (diff16 (clean15 (m.paradas.getD 0)) st.last_raw_stop_q ≤ 50 →
          st.acc_stop_q + diff16 (clean15 (m.paradas.getD 0)) st.last_raw_stop_q < U32 →
          (ehStep s m st).acc_stop_q =
            st.acc_stop_q + diff16 (clean15 (m.paradas.getD 0)) st.last_raw_stop_q) ∧
       (ehStep s m st).last_raw_stop_q = clean15 (m.paradas.getD 0))) ∧
    (∀ (s : Int) (m : Msg) (st : EHState), st.initialized = true → st.shift = s →
      st.acc_falla_q < U32 →
      ((20 < diff16 (clean15 (m.fallaHorno.getD 0)) st.last_raw_falla_q →
          (ehStep s m st).acc_falla_q = st.acc_falla_q) ∧
       (diff16 (clean15 (m.fallaHorno.getD 0)) st.last_raw_falla_q ≤ 20 →
          st.acc_falla_q + diff16 (clean15 (m.fallaHorno.getD 0)) st.last_raw_falla_q < U32 →
          (ehStep s m st).acc_falla_q =
            st.acc_falla_q + diff16 (clean15 (m.fallaHorno.getD 0)) st.last_raw_falla_q) ∧
       (ehStep s m st).last_raw_falla_q = clean15 (m.fallaHorno.getD 0))) ∧
    (∀ (s : Int) (m : Msg) (st : EHState), st.initialized = true → st.shift = s →
      ((250 < diff16 (clean15 (m.tiempoProd_ds.getD 0)) st.last_raw_prod_t →
          (ehStep s m st).acc_prod_t_ds = st.acc_prod_t_ds) ∧
       (diff16 (clean15 (m.tiempoProd_ds.getD 0)) st.last_raw_prod_t ≤ 250 →
          (ehStep s m st).acc_prod_t_ds =
            st.acc_prod_t_ds + diff16 (clean15 (m.tiempoProd_ds.getD 0)) st.last_raw_prod_t) ∧
       (ehStep s m st).last_raw_prod_t = clean15 (m.tiempoProd_ds.getD 0))) ∧
    (∀ (s : Int) (m : Msg) (st : EHState), st.initialized = true → st.shift = s →
      st.acc_stop_t_s < U32 →
      ((30 < diff16 (clean15 (m.tiempoParadas_s.getD 0)) st.last_raw_stop_t →
          (ehStep s m st).acc_stop_t_s = st.acc_stop_t_s) ∧
       (diff16 (clean15 (m.tiempoParadas_s.getD 0)) st.last_raw_stop_t ≤ 30 →
          st.acc_stop_t_s + diff16 (clean15 (m.tiempoParadas_s.getD 0)) st.last_raw_stop_t < U32 →
          (ehStep s m st).acc_stop_t_s =
            st.acc_stop_t_s + diff16 (clean15 (m.tiempoParadas_s.getD 0)) st.last_raw_stop_t) ∧
       (ehStep s m st).last_raw_stop_t = clean15 (m.tiempoParadas_s.getD 0))) ∧
    (∀ (s : Int) (m : Msg) (st : EHState), st.initialized = true → st.shift = s →
      st.acc_falla_t_s < U32 →
      ((30 < diff16 (clean15 (m.tiempoFalla_s.getD 0)) st.last_raw_falla_t →
          (ehStep s m st).acc_falla_t_s = st.acc_falla_t_s) ∧
       (diff16 (clean15 (m.tiempoFalla_s.getD 0)) st.last_raw_falla_t ≤ 30 →
          st.acc_falla_t_s + diff16 (clean15 (m.tiempoFalla_s.getD 0)) st.last_raw_falla_t < U32 →
          (ehStep s m st).acc_falla_t_s =
            st.acc_falla_t_s + diff16 (clean15 (m.tiempoFalla_s.getD 0)) st.last_raw_falla_t) ∧
       (ehStep s m st).last_raw_falla_t = clean15 (m.tiempoFalla_s.getD 0))) := by
  refine ⟨?_, ?_, ?_, ?_, ?_, ?_, ?_, ?_, ?_, ?_, ?_, ?_⟩
  · intro s m st hi hs hb
    have e : (esStep s m st).acc_arranques =
        (st.acc_arranques +
          safe_delta_u16 st.last_arranques (clean15 (m.arranques.getD 0)) 100) % U32 := by
      rw [esStep_same s m st hi hs]
    have el : (esStep s m st).last_arranques = clean15 (m.arranques.getD 0) := by
      rw [esStep_same s m st hi hs]
    refine ⟨?_, ?_, el⟩
    · intro hr
      rw [e, safe_delta_u16_eq, if_pos hr, Nat.add_zero, Nat.mod_eq_of_lt hb]
    · intro ha hov
      rw [e, safe_delta_u16_eq, if_neg (by omega), Nat.mod_eq_of_lt hov]
  · intro s m st hi hs hb
    have e : (esStep s m st).acc_t_operacion_s =
        (st.acc_t_operacion_s +
          safe_delta_u16 st.last_t_operacion (clean15 (m.tiempoOperacion_s.getD 0)) 30) % U32 := by
      rw [esStep_same s m st hi hs]
    have el : (esStep s m st).last_t_operacion = clean15 (m.tiempoOperacion_s.getD 0) := by
      rw [esStep_same s m st hi hs]
    refine ⟨?_, ?_, el⟩
    · intro hr
      rw [e, safe_delta_u16_eq, if_pos hr, Nat.add_zero, Nat.mod_eq_of_lt hb]
    · intro ha hov
      rw [e, safe_delta_u16_eq, if_neg (by omega), Nat.mod_eq_of_lt hov]
  · intro s m st hi hs hp hb
    have e : (esmStep s m st).acc_prod_q =
        (st.acc_prod_q +
          safe_delta_u16_hdr st.last_raw_prod_q (u16 (m.cantidadProductos.getD 0)) 200) % U32 := by
      rw [esmStep_same s m st hi hs]
    have el : (esmStep s m st).last_raw_prod_q = u16 (m.cantidadProductos.getD 0) := by
      rw [esmStep_same s m st hi hs]
    have hq := safe_delta_u16_hdr_eq st.last_raw_prod_q (u16 (m.cantidadProductos.getD 0)) 200
      hp (u16_lt _) (by norm_num)
    norm_num at hq
    refine ⟨?_, ?_, el⟩
    · intro hr
      rw [e, hq, if_pos hr, Nat.add_zero, Nat.mod_eq_of_lt hb]
    · intro ha hov
      rw [e, hq, if_neg (by omega), Nat.mod_eq_of_lt hov]
  · intro s m st hi hs hp hb
    have e : (esmStep s m st).acc_stop_q =
        (st.acc_stop_q +
          safe_delta_u16_hdr st.last_raw_stop_q (u16 (m.paradas.getD 0)) 200) % U32 := by
      rw [esmStep_same s m st hi hs]
    have el : (esmStep s m st).last_raw_stop_q = u16 (m.paradas.getD 0) := by
      rw [esmStep_same s m st hi hs]
    have hq := safe_delta_u16_hdr_eq st.last_raw_stop_q (u16 (m.paradas.getD 0)) 200
      hp (u16_lt _) (by norm_num)
    norm_num at hq
    refine ⟨?_, ?_, el⟩
    · intro hr
      rw [e, hq, if_pos hr, Nat.add_zero, Nat.mod_eq_of_lt hb]
    · intro ha hov
      rw [e, hq, if_neg (by omega), Nat.mod_eq_of_lt hov]
  · intro s m st hi hs hp
    have e : (esmStep s m st).acc_prod_t_ds =
        st.acc_prod_t_ds +
          safe_delta_u16_hdr st.last_raw_prod_t (u16 (m.tiempoProduccion_ds.getD 0)) 200 := by
      rw [esmStep_same s m st hi hs]
    have el : (esmStep s m st).last_raw_prod_t = u16 (m.tiempoProduccion_ds.getD 0) := by
      rw [esmStep_same s m st hi hs]
    have hq := safe_delta_u16_hdr_eq st.last_raw_prod_t (u16 (m.tiempoProduccion_ds.getD 0)) 200
      hp (u16_lt _) (by norm_num)
    norm_num at hq
    refine ⟨?_, ?_, el⟩
    · intro hr
      rw [e, hq, if_pos hr, Nat.add_zero]
    · intro ha
      rw [e, hq, if_neg (by omega)]
  · intro s m st hi hs hp hb
    have e : (esmStep s m st).acc_stop_t_s =
        (st.acc_stop_t_s +
          safe_delta_u16_hdr st.last_raw_stop_t (u16 (m.tiempoParadas_s.getD 0)) 200) % U32 := by
      rw [esmStep_same s m st hi hs]
    have el : (esmStep s m st).last_raw_stop_t = u16 (m.tiempoParadas_s.getD 0) := by
      rw [esmStep_same s m st hi hs]
    have hq := safe_delta_u16_hdr_eq st.last_raw_stop_t (u16 (m.tiempoParadas_s.getD 0)) 200
      hp (u16_lt _) (by norm_num)
    norm_num at hq
    refine ⟨?_, ?_, el⟩
    · intro hr
      rw [e, hq, if_pos hr, Nat.add_zero, Nat.mod_eq_of_lt hb]
    · intro ha hov
      rw [e, hq, if_neg (by omega), Nat.mod_eq_of_lt hov]
  · intro s m st hi hs hb
    have e : (ehStep s m st).acc_prod_q =
        (st.acc_prod_q +
          safe_delta_u16 st.last_raw_prod_q (clean15 (m.cantidad.getD 0)) 200) % U32 := by
      rw [ehStep_same s m st hi hs]
    have el : (ehStep s m st).last_raw_prod_q = clean15 (m.cantidad.getD 0) := by
      rw [ehStep_same s m st hi hs]
    refine ⟨?_, ?_, el⟩
    · intro hr
      rw [e, safe_delta_u16_eq, if_pos hr, Nat.add_zero, Nat.mod_eq_of_lt hb]
    · intro ha hov
      rw [e, safe_delta_u16_eq, if_neg (by omega), Nat.mod_eq_of_lt hov]
  · intro s m st hi hs hb
    have e : (ehStep s m st).acc_stop_q =
        (st.acc_stop_q +
          safe_delta_u16 st.last_raw_stop_q (clean15 (m.paradas.getD 0)) 50) % U32 := by
      rw [ehStep_same s m st hi hs]
    have el : (ehStep s m st).last_raw_stop_q = clean15 (m.paradas.getD 0) := by
      rw [ehStep_same s m st hi hs]
    refine ⟨?_, ?_, el⟩
    · intro hr
      rw [e, safe_delta_u16_eq, if_pos hr, Nat.add_zero, Nat.mod_eq_of_lt hb]
    · intro ha hov
      rw [e, safe_delta_u16_eq, if_neg (by omega), Nat.mod_eq_of_lt hov]
  · intro s m st hi hs hb
    have e : (ehStep s m st).acc_falla_q =
        (st.acc_falla_q +
          safe_delta_u16 st.last_raw_falla_q (clean15 (m.fallaHorno.getD 0)) 20) % U32 := by
      rw [ehStep_same s m st hi hs]
    have el : (ehStep s m st).last_raw_falla_q = clean15 (m.fallaHorno.getD 0) := by
      rw [ehStep_same s m st hi hs]
    refine ⟨?_, ?_, el⟩
    · intro hr
      rw [e, safe_delta_u16_eq, if_pos hr, Nat.add_zero, Nat.mod_eq_of_lt hb]
    · intro ha hov
      rw [e, safe_delta_u16_eq, if_neg (by omega), Nat.mod_eq_of_lt hov]
  · intro s m st hi hs
    have e : (ehStep s m st).acc_prod_t_ds =
        st.acc_prod_t_ds +
          safe_delta_u16 st.last_raw_prod_t (clean15 (m.tiempoProd_ds.getD 0)) 250 := by
      rw [ehStep_same s m st hi hs]
    have el : (ehStep s m st).last_raw_prod_t = clean15 (m.tiempoProd_ds.getD 0) := by
      rw [ehStep_same s m st hi hs]
    refine ⟨?_, ?_, el⟩
    · intro hr
      rw [e, safe_delta_u16_eq, if_pos hr, Nat.add_zero]
    · intro ha
      rw [e, safe_delta_u16_eq, if_neg (by omega)]
  · intro s m st hi hs hb
    have e : (ehStep s m st).acc_stop_t_s =
        (st.acc_stop_t_s +
          safe_delta_u16 st.last_raw_stop_t (clean15 (m.tiempoParadas_s.getD 0)) 30) % U32 := by
      rw [ehStep_same s m st hi hs]
    have el : (ehStep s m st).last_raw_stop_t = clean15 (m.tiempoParadas_s.getD 0) := by
      rw [ehStep_same s m st hi hs]
    refine ⟨?_, ?_, el⟩
    · intro hr
      rw [e, safe_delta_u16_eq, if_pos hr, Nat.add_zero, Nat.mod_eq_of_lt hb]
    · intro ha hov
      rw [e, safe_delta_u16_eq, if_neg (by omega), Nat.mod_eq_of_lt hov]
  · intro s m st hi hs hb
    have e : (ehStep s m st).acc_falla_t_s =
        (st.acc_falla_t_s +
          safe_delta_u16 st.last_raw_falla_t (clean15 (m.tiempoFalla_s.getD 0)) 30) % U32 := by
      rw [ehStep_same s m st hi hs]
    have el : (ehStep s m st).last_raw_falla_t = clean15 (m.tiempoFalla_s.getD 0) := by
      rw [ehStep_same s m st hi hs]
    refine ⟨?_, ?_, el⟩
    · intro hr
      rw [e, safe_delta_u16_eq, if_pos hr, Nat.add_zero, Nat.mod_eq_of_lt hb]
    · intro ha hov
      rw [e, safe_delta_u16_eq, if_neg (by omega), Nat.mod_eq_of_lt hov]

/-- Witness for claim C4: on an initialized DryerIn line with `last_raw = 0`,
a sample with `arranques = 200` (candidate delta 200 above the bound 100)
leaves the accumulator unchanged. -/
theorem claim_C4_safe_delta_witness :
    stC4.initialized = true ∧ stC4.shift = 1 ∧ stC4.acc_arranques < U32 ∧
    100 < diff16 (clean15 (mC4.arranques.getD 0)) stC4.last_arranques ∧
    (esStep 1 mC4 stC4).acc_arranques = stC4.acc_arranques := by
  refine ⟨rfl, rfl, by decide, by decide, ?_⟩
  exact (claim_C4_safe_delta.1 1 mC4 stC4 rfl rfl (by decide)).1 (by decide)

/-- Stored raw words after any `PrensaHidraulica1Processor` sample equal the
masked current readings, in both branches of the shift guard. -/
theorem ph1Step_last (s : Int) (m : Msg) (st : PH1State) :
    (ph1Step s m st).last_contador15 = clean15 (m.cantidadProductos.getD 0) ∧
    (ph1Step s m st).last_raw_prod_time = u16 (m.tiempoProduccion_ds.getD 0) ∧
    (ph1Step s m st).last_paradas15 = clean15 (m.paradas.getD 0) ∧
    (ph1Step s m st).last_tiempo_paradas15 = clean15 (m.tiempoParadas_s.getD 0) := by
  simp only [ph1Step]
  split <;> exact ⟨rfl, rfl, rfl, rfl⟩

/-- Stored raw words after any `PrensaHidraulica2Processor` sample equal the
masked current readings. -/
theorem ph2Step_last (s : Int) (m : Msg) (st : PH2State) :
    (ph2Step s m st).last_contador15 = clean15 (m.cantidadProductos.getD 0) ∧
    (ph2Step s m st).last_raw_prod_time = u16 (m.tiempoProduccion_ds.getD 0) ∧
    (ph2Step s m st).last_paradas15 = clean15 (m.paradas.getD 0) ∧
    (ph2Step s m st).last_tiempo_paradas15 = clean15 (m.tiempoParadas_s.getD 0) := by
  simp only [ph2Step]
  split <;> exact ⟨rfl, rfl, rfl, rfl⟩

/-- Stored raw words after any `SalidaSecadorProcessor` sample equal the
masked current readings. -/
theorem ssStep_last (s : Int) (m : Msg) (st : SSState) :
    (ssStep s m st).last_prod_q15 = clean15 (m.cantidadProductos.getD 0) ∧
    (ssStep s m st).last_stop_q15 = clean15 (m.paradas.getD 0) ∧
    (ssStep s m st).last_raw_prod_t = u16 (m.tiempoProduccion_ds.getD 0) ∧
    (ssStep s m st).last_stop_t15 = clean15 (m.tiempoParadas_s.getD 0) := by
  simp only [ssStep]
  split <;> exact ⟨rfl, rfl, rfl, rfl⟩

/-- Stored raw words after any `SalidaHornoProcessor` sample equal the masked
current readings. -/
theorem shStep_last (s : Int) (m : Msg) (st : SHState) :
    (shStep s m st).last_bancalinos0 = clean15 (m.bancalinos0.getD 0) ∧
    (shStep s m st).last_bancalinos1 = clean15 (m.bancalinos1.getD 0) ∧
    (shStep s m st).last_bancalinosComb1 = clean15 (m.bancalinosComb1.getD 0) ∧
    (shStep s m st).last_bancalinosComb2 = clean15 (m.bancalinosComb2.getD 0) ∧
    (shStep s m st).last_bancalinosTotal = clean15 (m.bancalinosTotal.getD 0) ∧
    (shStep s m st).last_cambioBarrera = clean15 (m.cambioBarrera.getD 0) ∧
    (shStep s m st).last_cambioBarreraTotal = clean15 (m.cambioBarreraTotal.getD 0) ∧
    (shStep s m st).last_cambioSentido = clean15 (m.cambioSentido.getD 0) ∧
    (shStep s m st).last_cambioSentidoTotal = clean15 (m.cambioSentidoTotal.getD 0) ∧
    (shStep s m st).last_cantidad = clean15 (m.cantidad.getD 0) ∧
    (shStep s m st).last_cantidad_total = clean15 (m.cantidad_total.getD 0) ∧
    (shStep s m st).last_paradas_1 = clean15 (m.paradas_1.getD 0) ∧
    (shStep s m st).last_paradas_2 = clean15 (m.paradas_2.getD 0) ∧
    (shStep s m st).last_timer1Hz = u16 (m.timer1Hz.getD 0) := by
  simp only [shStep]
  split <;> exact ⟨rfl, rfl, rfl, rfl, rfl, rfl, rfl, rfl, rfl, rfl, rfl, rfl, rfl, rfl⟩

/-- First PH_1 sample of the C2 witness scenario (counter 100). -/
def mC2a : Msg := { cantidadProductos := some 100 }

/-- Second PH_1 sample of the C2 witness scenario (counter 130). -/
def mC2b : Msg := { cantidadProductos := some 130 }

/-- Claim C2: for two consecutive samples inside one shift, every signal that
does not use `safe_delta` advances its accumulator by exactly
`diff_w(r₂, r₁)` on the masked readings, `w` being the signal's width —
15-bit counters through `diff15`, 16-bit words through `diff16` (for
deci-second signals the deltas are counted on the tick accumulator that
models the C++ `double`).  Covered processors: PH_1, PH_2, DryerOut and
KilnOut; every hypothesis is the no-overflow bound of the corresponding
`uint32_t` addition. -/
theorem claim_C2_delta_correctness :
    (∀ (s : Int) (m1 m2 : Msg) (st0 : PH1State),
      (ph1Step s m1 st0).acc_pisadas +
        diff15 (clean15 (m2.cantidadProductos.getD 0)) (clean15 (m1.cantidadProductos.getD 0)) < U32 →
      (ph1Step s m1 st0).acc_paradas +
        diff15 (clean15 (m2.paradas.getD 0)) (clean15 (m1.paradas.getD 0)) < U32 →
      (ph1Step s m1 st0).acc_tiempo_paradas_s +
        diff15 (clean15 (m2.tiempoParadas_s.getD 0)) (clean15 (m1.tiempoParadas_s.getD 0)) < U32 →
      ((ph1Step s m2 (ph1Step s m1 st0)).acc_pisadas =
         (ph1Step s m1 st0).acc_pisadas +
           diff15 (clean15 (m2.cantidadProductos.getD 0)) (clean15 (m1.cantidadProductos.getD 0)) ∧
       (ph1Step s m2 (ph1Step s m1 st0)).acc_prod_time_ds =
         (ph1Step s m1 st0).acc_prod_time_ds +
           diff16 (u16 (m2.tiempoProduccion_ds.getD 0)) (u16 (m1.tiempoProduccion_ds.getD 0)) ∧
       (ph1Step s m2 (ph1Step s m1 st0)).acc_paradas =
         (ph1Step s m1 st0).acc_paradas +
           diff15 (clean15 (m2.paradas.getD 0)) (clean15 (m1.paradas.getD 0)) ∧
       (ph1Step s m2 (ph1Step s m1 st0)).acc_tiempo_paradas_s =
         (ph1Step s m1 st0).acc_tiempo_paradas_s +
           diff15 (clean15 (m2.tiempoParadas_s.getD 0)) (clean15 (m1.tiempoParadas_s.getD 0)))) ∧
    (∀ (s : Int) (m1 m2 : Msg) (st0 : PH2State),
      (ph2Step s m1 st0).acc_pisadas +
        diff15 (clean15 (m2.cantidadProductos.getD 0)) (clean15 (m1.cantidadProductos.getD 0)) < U32 →
      (ph2Step s m1 st0).acc_paradas +
        diff15 (clean15 (m2.paradas.getD 0)) (clean15 (m1.paradas.getD 0)) < U32 →
      (ph2Step s m1 st0).acc_tiempo_paradas_s +
        diff15 (clean15 (m2.tiempoParadas_s.getD 0)) (clean15 (m1.tiempoParadas_s.getD 0)) < U32 →
      ((ph2Step s m2 (ph2Step s m1 st0)).acc_pisadas =
         (ph2Step s m1 st0).acc_pisadas +
           diff15 (clean15 (m2.cantidadProductos.getD 0)) (clean15 (m1.cantidadProductos.getD 0)) ∧
       (ph2Step s m2 (ph2Step s m1 st0)).acc_prod_time_ds =
         (ph2Step s m1 st0).acc_prod_time_ds +
           diff16 (u16 (m2.tiempoProduccion_ds.getD 0)) (u16 (m1.tiempoProduccion_ds.getD 0)) ∧
       (ph2Step s m2 (ph2Step s m1 st0)).acc_paradas =
         (ph2Step s m1 st0).acc_paradas +
           diff15 (clean15 (m2.paradas.getD 0)) (clean15 (m1.paradas.getD 0)) ∧
       (ph2Step s m2 (ph2Step s m1 st0)).acc_tiempo_paradas_s =
         (ph2Step s m1 st0).acc_tiempo_paradas_s +
           diff15 (clean15 (m2.tiempoParadas_s.getD 0)) (clean15 (m1.tiempoParadas_s.getD 0)))) ∧
    (∀ (s : Int) (m1 m2 : Msg) (st0 : SSState),
      (ssStep s m1 st0).acc_prod_q +
        diff15 (clean15 (m2.cantidadProductos.getD 0)) (clean15 (m1.cantidadProductos.getD 0)) < U32 →
      (ssStep s m1 st0).acc_stop_q +
        diff15 (clean15 (m2.paradas.getD 0)) (clean15 (m1.paradas.getD 0)) < U32 →
      (ssStep s m1 st0).acc_stop_t_s +
        diff15 (clean15 (m2.tiempoParadas_s.getD 0)) (clean15 (m1.tiempoParadas_s.getD 0)) < U32 →
      ((ssStep s m2 (ssStep s m1 st0)).acc_prod_q =
         (ssStep s m1 st0).acc_prod_q +
           diff15 (clean15 (m2.cantidadProductos.getD 0)) (clean15 (m1.cantidadProductos.getD 0)) ∧
       (ssStep s m2 (ssStep s m1 st0)).acc_stop_q =
         (ssStep s m1 st0).acc_stop_q +
           diff15 (clean15 (m2.paradas.getD 0)) (clean15 (m1.paradas.getD 0)) ∧
       (ssStep s m2 (ssStep s m1 st0)).acc_prod_t_ds =
         (ssStep s m1 st0).acc_prod_t_ds +
           diff16 (u16 (m2.tiempoProduccion_ds.getD 0)) (u16 (m1.tiempoProduccion_ds.getD 0)) ∧
       (ssStep s m2 (ssStep s m1 st0)).acc_stop_t_s =
         (ssStep s m1 st0).acc_stop_t_s +
           diff15 (clean15 (m2.tiempoParadas_s.getD 0)) (clean15 (m1.tiempoParadas_s.getD 0)))) ∧
    (∀ (s : Int) (m1 m2 : Msg) (st0 : SHState),
      (shStep s m1 st0).acc_bancalinos0 +
        diff15 (clean15 (m2.bancalinos0.getD 0)) (clean15 (m1.bancalinos0.getD 0)) < U32 →
      (shStep s m1 st0).acc_bancalinos1 +
        diff15 (clean15 (m2.bancalinos1.getD 0)) (clean15 (m1.bancalinos1.getD 0)) < U32 →
      (shStep s m1 st0).acc_bancalinosComb1 +
        diff15 (clean15 (m2.bancalinosComb1.getD 0)) (clean15 (m1.bancalinosComb1.getD 0)) < U32 →
      (shStep s m1 st0).acc_bancalinosComb2 +
        diff15 (clean15 (m2.bancalinosComb2.getD 0)) (clean15 (m1.bancalinosComb2.getD 0)) < U32 →
      (shStep s m1 st0).acc_bancalinosTotal +
        diff15 (clean15 (m2.bancalinosTotal.getD 0)) (clean15 (m1.bancalinosTotal.getD 0)) < U32 →
      (shStep s m1 st0).acc_cambioBarrera +
        diff15 (clean15 (m2.cambioBarrera.getD 0)) (clean15 (m1.cambioBarrera.getD 0)) < U32 →
      (shStep s m1 st0).acc_cambioBarreraTotal +
        diff15 (clean15 (m2.cambioBarreraTotal.getD 0)) (clean15 (m1.cambioBarreraTotal.getD 0)) < U32 →
      (shStep s m1 st0).acc_cambioSentido +
        diff15 (clean15 (m2.cambioSentido.getD 0)) (clean15 (m1.cambioSentido.getD 0)) < U32 →
      (shStep s m1 st0).acc_cambioSentidoTotal +
        diff15 (clean15 (m2.cambioSentidoTotal.getD 0)) (clean15 (m1.cambioSentidoTotal.getD 0)) < U32 →
      (shStep s m1 st0).acc_cantidad +
        diff15 (clean15 (m2.cantidad.getD 0)) (clean15 (m1.cantidad.getD 0)) < U32 →
      (shStep s m1 st0).acc_cantidad_total +
        diff15 (clean15 (m2.cantidad_total.getD 0)) (clean15 (m1.cantidad_total.getD 0)) < U32 →
      (shStep s m1 st0).acc_paradas_1 +
        diff15 (clean15 (m2.paradas_1.getD 0)) (clean15 (m1.paradas_1.getD 0)) < U32 →
      (shStep s m1 st0).acc_paradas_2 +
        diff15 (clean15 (m2.paradas_2.getD 0)) (clean15 (m1.paradas_2.getD 0)) < U32 →
      (shStep s m1 st0).acc_timer1Hz +
        diff16 (u16 (m2.timer1Hz.getD 0)) (u16 (m1.timer1Hz.getD 0)) < U32 →
      (shStep s m1 st0).acc_tiempo_operacion_s +
        diff16 (u16 (m2.timer1Hz.getD 0)) (u16 (m1.timer1Hz.getD 0)) < U32 →
      ((shStep s m2 (shStep s m1 st0)).acc_bancalinos0 =
         (shStep s m1 st0).acc_bancalinos0 +
           diff15 (clean15 (m2.bancalinos0.getD 0)) (clean15 (m1.bancalinos0.getD 0)) ∧
       (shStep s m2 (shStep s m1 st0)).acc_bancalinos1 =
         (shStep s m1 st0).acc_bancalinos1 +
           diff15 (clean15 (m2.bancalinos1.getD 0)) (clean15 (m1.bancalinos1.getD 0)) ∧
       (shStep s m2 (shStep s m1 st0)).acc_bancalinosComb1 =
         (shStep s m1 st0).acc_bancalinosComb1 +
           diff15 (clean15 (m2.bancalinosComb1.getD 0)) (clean15 (m1.bancalinosComb1.getD 0)) ∧
       (shStep s m2 (shStep s m1 st0)).acc_bancalinosComb2 =
         (shStep s m1 st0).acc_bancalinosComb2 +
           diff15 (clean15 (m2.bancalinosComb2.getD 0)) (clean15 (m1.bancalinosComb2.getD 0)) ∧
       (shStep s m2 (shStep s m1 st0)).acc_bancalinosTotal =
         (shStep s m1 st0).acc_bancalinosTotal +
           diff15 (clean15 (m2.bancalinosTotal.getD 0)) (clean15 (m1.bancalinosTotal.getD 0)) ∧
       (shStep s m2 (shStep s m1 st0)).acc_cambioBarrera =
         (shStep s m1 st0).acc_cambioBarrera +
           diff15 (clean15 (m2.cambioBarrera.getD 0)) (clean15 (m1.cambioBarrera.getD 0)) ∧
       (shStep s m2 (shStep s m1 st0)).acc_cambioBarreraTotal =
         (shStep s m1 st0).acc_cambioBarreraTotal +
           diff15 (clean15 (m2.cambioBarreraTotal.getD 0)) (clean15 (m1.cambioBarreraTotal.getD 0)) ∧
       (shStep s m2 (shStep s m1 st0)).acc_cambioSentido =
         (shStep s m1 st0).acc_cambioSentido +
           diff15 (clean15 (m2.cambioSentido.getD 0)) (clean15 (m1.cambioSentido.getD 0)) ∧
       (shStep s m2 (shStep s m1 st0)).acc_cambioSentidoTotal =
         (shStep s m1 st0).acc_cambioSentidoTotal +
           diff15 (clean15 (m2.cambioSentidoTotal.getD 0)) (clean15 (m1.cambioSentidoTotal.getD 0)) ∧
       (shStep s m2 (shStep s m1 st0)).acc_cantidad =
         (shStep s m1 st0).acc_cantidad +
           diff15 (clean15 (m2.cantidad.getD 0)) (clean15 (m1.cantidad.getD 0)) ∧
       (shStep s m2 (shStep s m1 st0)).acc_cantidad_total =
         (shStep s m1 st0).acc_cantidad_total +
           diff15 (clean15 (m2.cantidad_total.getD 0)) (clean15 (m1.cantidad_total.getD 0)) ∧
       (shStep s m2 (shStep s m1 st0)).acc_paradas_1 =
         (shStep s m1 st0).acc_paradas_1 +
           diff15 (clean15 (m2.paradas_1.getD 0)) (clean15 (m1.paradas_1.getD 0)) ∧
       (shStep s m2 (shStep s m1 st0)).acc_paradas_2 =
         (shStep s m1 st0).acc_paradas_2 +
           diff15 (clean15 (m2.paradas_2.getD 0)) (clean15 (m1.paradas_2.getD 0)) ∧
       (shStep s m2 (shStep s m1 st0)).acc_timer1Hz =
         (shStep s m1 st0).acc_timer1Hz +
           diff16 (u16 (m2.timer1Hz.getD 0)) (u16 (m1.timer1Hz.getD 0)) ∧
       (shStep s m2 (shStep s m1 st0)).acc_tiempo_operacion_s =
         (shStep s m1 st0).acc_tiempo_operacion_s +
           diff16 (u16 (m2.timer1Hz.getD 0)) (u16 (m1.timer1Hz.getD 0)))) := by
  refine ⟨?_, ?_, ?_, ?_⟩
  · intro s m1 m2 st0 h1 h2 h3
    have hi := ph1Step_init s m1 st0
    have hl := ph1Step_last s m1 st0
    have heq := ph1Step_same s m2 (ph1Step s m1 st0) hi.1 hi.2
    refine ⟨?_, ?_, ?_, ?_⟩
    · rw [heq, hl.1]
      exact Nat.mod_eq_of_lt h1
    · rw [heq, hl.2.1]
    · rw [heq, hl.2.2.1]
      exact Nat.mod_eq_of_lt h2
    · rw [heq, hl.2.2.2]
      exact Nat.mod_eq_of_lt h3
  · intro s m1 m2 st0 h1 h2 h3
    have hi := ph2Step_init s m1 st0
    have hl := ph2Step_last s m1 st0
    have heq := ph2Step_same s m2 (ph2Step s m1 st0) hi.1 hi.2
    refine ⟨?_, ?_, ?_, ?_⟩
    · rw [heq, hl.1]
      exact Nat.mod_eq_of_lt h1
    · rw [heq, hl.2.1]
    · rw [heq, hl.2.2.1]
      exact Nat.mod_eq_of_lt h2
    · rw [heq, hl.2.2.2]
      exact Nat.mod_eq_of_lt h3
  · intro s m1 m2 st0 h1 h2 h3
    have hi := ssStep_init s m1 st0
    have hl := ssStep_last s m1 st0
    have heq := ssStep_same s m2 (ssStep s m1 st0) hi.1 hi.2
    refine ⟨?_, ?_, ?_, ?_⟩
    · rw [heq, hl.1]
      exact Nat.mod_eq_of_lt h1
    · rw [heq, hl.2.1]
      exact Nat.mod_eq_of_lt h2
    · rw [heq, hl.2.2.1]
    · rw [heq, hl.2.2.2]
      exact Nat.mod_eq_of_lt h3
  · intro s m1 m2 st0 h1 h2 h3 h4 h5 h6 h7 h8 h9 h10 h11 h12 h13 h14 h15
    have hi := shStep_init s m1 st0
    have hl := shStep_last s m1 st0
    have heq := shStep_same s m2 (shStep s m1 st0) hi.1 hi.2
    refine ⟨?_, ?_, ?_, ?_, ?_, ?_, ?_, ?_, ?_, ?_, ?_, ?_, ?_, ?_, ?_⟩
    · rw [heq, hl.1]
      exact Nat.mod_eq_of_lt h1
    · rw [heq, hl.2.1]
      exact Nat.mod_eq_of_lt h2
    · rw [heq, hl.2.2.1]
      exact Nat.mod_eq_of_lt h3
    · rw [heq, hl.2.2.2.1]
      exact Nat.mod_eq_of_lt h4
    · rw [heq, hl.2.2.2.2.1]
      exact Nat.mod_eq_of_lt h5
    · rw [heq, hl.2.2.2.2.2.1]
      exact Nat.mod_eq_of_lt h6
    · rw [heq, hl.2.2.2.2.2.2.1]
      exact Nat.mod_eq_of_lt h7
    · rw [heq, hl.2.2.2.2.2.2.2.1]
      exact Nat.mod_eq_of_lt h8
    · rw [heq, hl.2.2.2.2.2.2.2.2.1]
      exact Nat.mod_eq_of_lt h9
    · rw [heq, hl.2.2.2.2.2.2.2.2.2.1]
      exact Nat.mod_eq_of_lt h10
    · rw [heq, hl.2.2.2.2.2.2.2.2.2.2.1]
      exact Nat.mod_eq_of_lt h11
    · rw [heq, hl.2.2.2.2.2.2.2.2.2.2.2.1]
      exact Nat.mod_eq_of_lt h12
    · rw [heq, hl.2.2.2.2.2.2.2.2.2.2.2.2.1]
      exact Nat.mod_eq_of_lt h13
    · rw [heq, hl.2.2.2.2.2.2.2.2.2.2.2.2.2]
      exact Nat.mod_eq_of_lt h14
    · rw [heq, hl.2.2.2.2.2.2.2.2.2.2.2.2.2]
      exact Nat.mod_eq_of_lt h15

/-- Witness for claim C2: PH_1 samples with counter values 100 then 130 on a
fresh line advance the pisadas accumulator by `diff15(130, 100) = 30`. -/
theorem claim_C2_delta_correctness_witness :
    (ph1Step 1 mC2a ({} : PH1State)).acc_pisadas +
      diff15 (clean15 (mC2b.cantidadProductos.getD 0)) (clean15 (mC2a.cantidadProductos.getD 0)) < U32 ∧
    (ph1Step 1 mC2b (ph1Step 1 mC2a {})).acc_pisadas =
      (ph1Step 1 mC2a ({} : PH1State)).acc_pisadas +
        diff15 (clean15 (mC2b.cantidadProductos.getD 0)) (clean15 (mC2a.cantidadProductos.getD 0)) ∧
    (ph1Step 1 mC2b (ph1Step 1 mC2a {})).acc_pisadas = 30 := by
  refine ⟨by decide, ?_, by decide⟩
  exact (claim_C2_delta_correctness.1 1 mC2a mC2b {} (by decide) (by decide) (by decide)).1

/-- Initialized PH_1 line state used by the C1 witness. -/
def stC1 : PH1State := { initialized := true, shift := 1 }

/-- Claim C1: within one shift (the Clock keeps reporting the same shift and
the line is initialized in it), every shift accumulator of every processor is
non-decreasing from one processed sample to the next.  Hypotheses of the form
`acc + 65536 ≤ 2^32` (resp. the `uint64_t` analogue for Quality) keep the
`uint32_t` addition below its modulus; since every per-sample delta is below
`2^16`, they hold for every state a production shift can reach. -/
theorem claim_C1_accumulators_monotone :
    (∀ (s : Int) (m : Msg) (st : PH1State), st.initialized = true → st.shift = s →
      st.acc_pisadas + 65536 ≤ U32 → st.acc_paradas + 65536 ≤ U32 →
      st.acc_tiempo_paradas_s + 65536 ≤ U32 →
      (st.acc_pisadas ≤ (ph1Step s m st).acc_pisadas ∧
       st.acc_prod_time_ds ≤ (ph1Step s m st).acc_prod_time_ds ∧
       st.acc_paradas ≤ (ph1Step s m st).acc_paradas ∧
       st.acc_tiempo_paradas_s ≤ (ph1Step s m st).acc_tiempo_paradas_s)) ∧
    (∀ (s : Int) (m : Msg) (st : PH2State), st.initialized = true → st.shift = s →
      st.acc_pisadas + 65536 ≤ U32 → st.acc_paradas + 65536 ≤ U32 →
      st.acc_tiempo_paradas_s + 65536 ≤ U32 →
      (st.acc_pisadas ≤ (ph2Step s m st).acc_pisadas ∧
       st.acc_prod_time_ds ≤ (ph2Step s m st).acc_prod_time_ds ∧
       st.acc_paradas ≤ (ph2Step s m st).acc_paradas ∧
       st.acc_tiempo_paradas_s ≤ (ph2Step s m st).acc_tiempo_paradas_s)) ∧
    (∀ (s : Int) (m : Msg) (st : ESState), st.initialized = true → st.shift = s →
      st.acc_arranques + 65536 ≤ U32 → st.acc_t_operacion_s + 65536 ≤ U32 →
      (st.acc_arranques ≤ (esStep s m st).acc_arranques ∧
       st.acc_t_operacion_s ≤ (esStep s m st).acc_t_operacion_s)) ∧
    (∀ (s : Int) (m : Msg) (st : SSState), st.initialized = true → st.shift = s →
      st.acc_prod_q + 65536 ≤ U32 → st.acc_stop_q + 65536 ≤ U32 →
      st.acc_stop_t_s + 65536 ≤ U32 →
      (st.acc_prod_q ≤ (ssStep s m st).acc_prod_q ∧
       st.acc_stop_q ≤ (ssStep s m st).acc_stop_q ∧
       st.acc_prod_t_ds ≤ (ssStep s m st).acc_prod_t_ds ∧
       st.acc_stop_t_s ≤ (ssStep s m st).acc_stop_t_s)) ∧
    (∀ (s : Int) (m : Msg) (st : EsmState), st.initialized = true → st.shift = s →
      st.acc_prod_q + 65536 ≤ U32 → st.acc_stop_q + 65536 ≤ U32 →
      st.acc_stop_t_s + 65536 ≤ U32 →
      (st.acc_prod_q ≤ (esmStep s m st).acc_prod_q ∧
       st.acc_stop_q ≤ (esmStep s m st).acc_stop_q ∧
       st.acc_prod_t_ds ≤ (esmStep s m st).acc_prod_t_ds ∧
       st.acc_stop_t_s ≤ (esmStep s m st).acc_stop_t_s)) ∧
    (∀ (s : Int) (m : Msg) (st : EHState), st.initialized = true → st.shift = s →
      st.acc_prod_q + 65536 ≤ U32 → st.acc_stop_q + 65536 ≤ U32 →
      st.acc_falla_q + 65536 ≤ U32 → st.acc_stop_t_s + 65536 ≤ U32 →
      st.acc_falla_t_s + 65536 ≤ U32 →
      (st.acc_prod_q ≤ (ehStep s m st).acc_prod_q ∧
       st.acc_stop_q ≤ (ehStep s m st).acc_stop_q ∧
       st.acc_falla_q ≤ (ehStep s m st).acc_falla_q ∧
       st.acc_prod_t_ds ≤ (ehStep s m st).acc_prod_t_ds ∧
       st.acc_stop_t_s ≤ (ehStep s m st).acc_stop_t_s ∧
       st.acc_falla_t_s ≤ (ehStep s m st).acc_falla_t_s)) ∧
    (∀ (s : Int) (m : Msg) (st : SHState), st.initialized = true → st.shift = s →
      st.acc_bancalinos0 + 65536 ≤ U32 → st.acc_bancalinos1 + 65536 ≤ U32 →
      st.acc_bancalinosComb1 + 65536 ≤ U32 → st.acc_bancalinosComb2 + 65536 ≤ U32 →
      st.acc_bancalinosTotal + 65536 ≤ U32 → st.acc_cambioBarrera + 65536 ≤ U32 →
      st.acc_cambioBarreraTotal + 65536 ≤ U32 → st.acc_cambioSentido + 65536 ≤ U32 →
      st.acc_cambioSentidoTotal + 65536 ≤ U32 → st.acc_cantidad + 65536 ≤ U32 →
      st.acc_cantidad_total + 65536 ≤ U32 → st.acc_paradas_1 + 65536 ≤ U32 →
      st.acc_paradas_2 + 65536 ≤ U32 → st.acc_timer1Hz + 65536 ≤ U32 →
      st.acc_tiempo_operacion_s + 65536 ≤ U32 →
      (st.acc_bancalinos0 ≤ (shStep s m st).acc_bancalinos0 ∧
       st.acc_bancalinos1 ≤ (shStep s m st).acc_bancalinos1 ∧
       st.acc_bancalinosComb1 ≤ (shStep s m st).acc_bancalinosComb1 ∧
       st.acc_bancalinosComb2 ≤ (shStep s m st).acc_bancalinosComb2 ∧
       st.acc_bancalinosTotal ≤ (shStep s m st).acc_bancalinosTotal ∧
       st.acc_cambioBarrera ≤ (shStep s m st).acc_cambioBarrera ∧
       st.acc_cambioBarreraTotal ≤ (shStep s m st).acc_cambioBarreraTotal ∧
       st.acc_cambioSentido ≤ (shStep s m st).acc_cambioSentido ∧
       st.acc_cambioSentidoTotal ≤ (shStep s m st).acc_cambioSentidoTotal ∧
       st.acc_cantidad ≤ (shStep s m st).acc_cantidad ∧
       st.acc_cantidad_total ≤ (shStep s m st).acc_cantidad_total ∧
       st.acc_paradas_1 ≤ (shStep s m st).acc_paradas_1 ∧
       st.acc_paradas_2 ≤ (shStep s m st).acc_paradas_2 ∧
       st.acc_timer1Hz ≤ (shStep s m st).acc_timer1Hz ∧
       st.acc_tiempo_operacion_s ≤ (shStep s m st).acc_tiempo_operacion_s)) ∧
    (∀ (s : Int) (m : Msg) (st : CalState), st.initialized = true → st.shift = s →
      st.acc_q1 + calDeltaQ1 m < U64 → st.acc_q2 + calDeltaQ2 m < U64 →
      st.acc_q6 + calDeltaQ6 m < U64 → st.acc_discarded + calDeltaBroken m < U64 →
      (st.acc_q1 ≤ (calStep s m st).acc_q1 ∧
       st.acc_q2 ≤ (calStep s m st).acc_q2 ∧
       st.acc_q6 ≤ (calStep s m st).acc_q6 ∧
       st.acc_discarded ≤ (calStep s m st).acc_discarded)) := by
  refine ⟨?_, ?_, ?_, ?_, ?_, ?_, ?_, ?_⟩
  · intro s m st hi hs hb1 hb2 hb3
    rw [ph1Step_same s m st hi hs]
    refine ⟨?_, Nat.le_add_right _ _, ?_, ?_⟩
    · have hd := diff15_lt (clean15 (m.cantidadProductos.getD 0)) st.last_contador15
        (clean15_lt _)
      have hlt : st.acc_pisadas +
          diff15 (clean15 (m.cantidadProductos.getD 0)) st.last_contador15 < U32 := by omega
      exact mod_add_mono _ _ _ hlt
    · have hd := diff15_lt (clean15 (m.paradas.getD 0)) st.last_paradas15 (clean15_lt _)
      have hlt : st.acc_paradas +
          diff15 (clean15 (m.paradas.getD 0)) st.last_paradas15 < U32 := by omega
      exact mod_add_mono _ _ _ hlt
    · have hd := diff15_lt (clean15 (m.tiempoParadas_s.getD 0)) st.last_tiempo_paradas15
        (clean15_lt _)
      have hlt : st.acc_tiempo_paradas_s +
          diff15 (clean15 (m.tiempoParadas_s.getD 0)) st.last_tiempo_paradas15 < U32 := by omega
      exact mod_add_mono _ _ _ hlt
  · intro s m st hi hs hb1 hb2 hb3
    rw [ph2Step_same s m st hi hs]
    refine ⟨?_, Nat.le_add_right _ _, ?_, ?_⟩
    · have hd := diff15_lt (clean15 (m.cantidadProductos.getD 0)) st.last_contador15
        (clean15_lt _)
      have hlt : st.acc_pisadas +
          diff15 (clean15 (m.cantidadProductos.getD 0)) st.last_contador15 < U32 := by omega
      exact mod_add_mono _ _ _ hlt
    · have hd := diff15_lt (clean15 (m.paradas.getD 0)) st.last_paradas15 (clean15_lt _)
      have hlt : st.acc_paradas +
          diff15 (clean15 (m.paradas.getD 0)) st.last_paradas15 < U32 := by omega
      exact mod_add_mono _ _ _ hlt
    · have hd := diff15_lt (clean15 (m.tiempoParadas_s.getD 0)) st.last_tiempo_paradas15
        (clean15_lt _)
      have hlt : st.acc_tiempo_paradas_s +
          diff15 (clean15 (m.tiempoParadas_s.getD 0)) st.last_tiempo_paradas15 < U32 := by omega
      exact mod_add_mono _ _ _ hlt
  · intro s m st hi hs hb1 hb2
    rw [esStep_same s m st hi hs]
    constructor
    · have hd := safe_delta_u16_lt st.last_arranques (clean15 (m.arranques.getD 0)) 100
        (by have := clean15_lt (m.arranques.getD 0); omega)
      have hlt : st.acc_arranques +
          safe_delta_u16 st.last_arranques (clean15 (m.arranques.getD 0)) 100 < U32 := by omega
      exact mod_add_mono _ _ _ hlt
    · have hd := safe_delta_u16_lt st.last_t_operacion (clean15 (m.tiempoOperacion_s.getD 0)) 30
        (by have := clean15_lt (m.tiempoOperacion_s.getD 0); omega)
      have hlt : st.acc_t_operacion_s +
          safe_delta_u16 st.last_t_operacion (clean15 (m.tiempoOperacion_s.getD 0)) 30 < U32 := by
        omega
      exact mod_add_mono _ _ _ hlt
  · intro s m st hi hs hb1 hb2 hb3
    rw [ssStep_same s m st hi hs]
    refine ⟨?_, ?_, Nat.le_add_right _ _, ?_⟩
    · have hd := diff15_lt (clean15 (m.cantidadProductos.getD 0)) st.last_prod_q15
        (clean15_lt _)
      have hlt : st.acc_prod_q +
          diff15 (clean15 (m.cantidadProductos.getD 0)) st.last_prod_q15 < U32 := by omega
      exact mod_add_mono _ _ _ hlt
    · have hd := diff15_lt (clean15 (m.paradas.getD 0)) st.last_stop_q15 (clean15_lt _)
      have hlt : st.acc_stop_q +
          diff15 (clean15 (m.paradas.getD 0)) st.last_stop_q15 < U32 := by omega
      exact mod_add_mono _ _ _ hlt
    · have hd := diff15_lt (clean15 (m.tiempoParadas_s.getD 0)) st.last_stop_t15
        (clean15_lt _)
      have hlt : st.acc_stop_t_s +
          diff15 (clean15 (m.tiempoParadas_s.getD 0)) st.last_stop_t15 < U32 := by omega
      exact mod_add_mono _ _ _ hlt
  · intro s m st hi hs hb1 hb2 hb3
    rw [esmStep_same s m st hi hs]
    refine ⟨?_, ?_, Nat.le_add_right _ _, ?_⟩
    · have hd := safe_delta_u16_hdr_lt st.last_raw_prod_q (u16 (m.cantidadProductos.getD 0)) 200
        (by norm_num)
      have hlt : st.acc_prod_q +
          safe_delta_u16_hdr st.last_raw_prod_q (u16 (m.cantidadProductos.getD 0)) 200 < U32 := by
        omega
      exact mod_add_mono _ _ _ hlt
    · have hd := safe_delta_u16_hdr_lt st.last_raw_stop_q (u16 (m.paradas.getD 0)) 200
        (by norm_num)
      have hlt : st.acc_stop_q +
          safe_delta_u16_hdr st.last_raw_stop_q (u16 (m.paradas.getD 0)) 200 < U32 := by omega
      exact mod_add_mono _ _ _ hlt
    · have hd := safe_delta_u16_hdr_lt st.last_raw_stop_t (u16 (m.tiempoParadas_s.getD 0)) 200
        (by norm_num)
      have hlt : st.acc_stop_t_s +
          safe_delta_u16_hdr st.last_raw_stop_t (u16 (m.tiempoParadas_s.getD 0)) 200 < U32 := by
        omega
      exact mod_add_mono _ _ _ hlt
  · intro s m st hi hs hb1 hb2 hb3 hb4 hb5
    rw [ehStep_same s m st hi hs]
    refine ⟨?_, ?_, ?_, Nat.le_add_right _ _, ?_, ?_⟩
    · have hd := safe_delta_u16_lt st.last_raw_prod_q (clean15 (m.cantidad.getD 0)) 200
        (by have := clean15_lt (m.cantidad.getD 0); omega)
      have hlt : st.acc_prod_q +
          safe_delta_u16 st.last_raw_prod_q (clean15 (m.cantidad.getD 0)) 200 < U32 := by omega
      exact mod_add_mono _ _ _ hlt
    · have hd := safe_delta_u16_lt st.last_raw_stop_q (clean15 (m.paradas.getD 0)) 50
        (by have := clean15_lt (m.paradas.getD 0); omega)
      have hlt : st.acc_stop_q +
          safe_delta_u16 st.last_raw_stop_q (clean15 (m.paradas.getD 0)) 50 < U32 := by omega
      exact mod_add_mono _ _ _ hlt
    · have hd := safe_delta_u16_lt st.last_raw_falla_q (clean15 (m.fallaHorno.getD 0)) 20
        (by have := clean15_lt (m.fallaHorno.getD 0); omega)
      have hlt : st.acc_falla_q +
          safe_delta_u16 st.last_raw_falla_q (clean15 (m.fallaHorno.getD 0)) 20 < U32 := by omega
      exact mod_add_mono _ _ _ hlt
    · have hd := safe_delta_u16_lt st.last_raw_stop_t (clean15 (m.tiempoParadas_s.getD 0)) 30
        (by have := clean15_lt (m.tiempoParadas_s.getD 0); omega)
      have hlt : st.acc_stop_t_s +
          safe_delta_u16 st.last_raw_stop_t (clean15 (m.tiempoParadas_s.getD 0)) 30 < U32 := by
        omega
      exact mod_add_mono _ _ _ hlt
    · have hd := safe_delta_u16_lt st.last_raw_falla_t (clean15 (m.tiempoFalla_s.getD 0)) 30
        (by have := clean15_lt (m.tiempoFalla_s.getD 0); omega)
      have hlt : st.acc_falla_t_s +
          safe_delta_u16 st.last_raw_falla_t (clean15 (m.tiempoFalla_s.getD 0)) 30 < U32 := by
        omega
      exact mod_add_mono _ _ _ hlt
  · intro s m st hi hs hb1 hb2 hb3 hb4 hb5 hb6 hb7 hb8 hb9 hb10 hb11 hb12 hb13 hb14 hb15
    rw [shStep_same s m st hi hs]
    refine ⟨?_, ?_, ?_, ?_, ?_, ?_, ?_, ?_, ?_, ?_, ?_, ?_, ?_, ?_, ?_⟩
    · have hd := diff15_lt (clean15 (m.bancalinos0.getD 0)) st.last_bancalinos0 (clean15_lt _)
      have hlt : st.acc_bancalinos0 +
          diff15 (clean15 (m.bancalinos0.getD 0)) st.last_bancalinos0 < U32 := by omega
      exact mod_add_mono _ _ _ hlt
    · have hd := diff15_lt (clean15 (m.bancalinos1.getD 0)) st.last_bancalinos1 (clean15_lt _)
      have hlt : st.acc_bancalinos1 +
          diff15 (clean15 (m.bancalinos1.getD 0)) st.last_bancalinos1 < U32 := by omega
      exact mod_add_mono _ _ _ hlt
    · have hd := diff15_lt (clean15 (m.bancalinosComb1.getD 0)) st.last_bancalinosComb1
        (clean15_lt _)
      have hlt : st.acc_bancalinosComb1 +
          diff15 (clean15 (m.bancalinosComb1.getD 0)) st.last_bancalinosComb1 < U32 := by omega
      exact mod_add_mono _ _ _ hlt
    · have hd := diff15_lt (clean15 (m.bancalinosComb2.getD 0)) st.last_bancalinosComb2
        (clean15_lt _)
      have hlt : st.acc_bancalinosComb2 +
          diff15 (clean15 (m.bancalinosComb2.getD 0)) st.last_bancalinosComb2 < U32 := by omega
      exact mod_add_mono _ _ _ hlt
    · have hd := diff15_lt (clean15 (m.bancalinosTotal.getD 0)) st.last_bancalinosTotal
        (clean15_lt _)
      have hlt : st.acc_bancalinosTotal +
          diff15 (clean15 (m.bancalinosTotal.getD 0)) st.last_bancalinosTotal < U32 := by omega
      exact mod_add_mono _ _ _ hlt
    · have hd := diff15_lt (clean15 (m.cambioBarrera.getD 0)) st.last_cambioBarrera
        (clean15_lt _)
      have hlt : st.acc_cambioBarrera +
          diff15 (clean15 (m.cambioBarrera.getD 0)) st.last_cambioBarrera < U32 := by omega
      exact mod_add_mono _ _ _ hlt
    · have hd := diff15_lt (clean15 (m.cambioBarreraTotal.getD 0)) st.last_cambioBarreraTotal
        (clean15_lt _)
      have hlt : st.acc_cambioBarreraTotal +
          diff15 (clean15 (m.cambioBarreraTotal.getD 0)) st.last_cambioBarreraTotal < U32 := by
        omega
      exact mod_add_mono _ _ _ hlt
    · have hd := diff15_lt (clean15 (m.cambioSentido.getD 0)) st.last_cambioSentido
        (clean15_lt _)
      have hlt : st.acc_cambioSentido +
          diff15 (clean15 (m.cambioSentido.getD 0)) st.last_cambioSentido < U32 := by omega
      exact mod_add_mono _ _ _ hlt
    · have hd := diff15_lt (clean15 (m.cambioSentidoTotal.getD 0)) st.last_cambioSentidoTotal
        (clean15_lt _)
      have hlt : st.acc_cambioSentidoTotal +
          diff15 (clean15 (m.cambioSentidoTotal.getD 0)) st.last_cambioSentidoTotal < U32 := by
        omega
      exact mod_add_mono _ _ _ hlt
    · have hd := diff15_lt (clean15 (m.cantidad.getD 0)) st.last_cantidad (clean15_lt _)
      have hlt : st.acc_cantidad +
          diff15 (clean15 (m.cantidad.getD 0)) st.last_cantidad < U32 := by omega
      exact mod_add_mono _ _ _ hlt
    · have hd := diff15_lt (clean15 (m.cantidad_total.getD 0)) st.last_cantidad_total
        (clean15_lt _)
      have hlt : st.acc_cantidad_total +
          diff15 (clean15 (m.cantidad_total.getD 0)) st.last_cantidad_total < U32 := by omega
      exact mod_add_mono _ _ _ hlt
    · have hd := diff15_lt (clean15 (m.paradas_1.getD 0)) st.last_paradas_1 (clean15_lt _)
      have hlt : st.acc_paradas_1 +
          diff15 (clean15 (m.paradas_1.getD 0)) st.last_paradas_1 < U32 := by omega
      exact mod_add_mono _ _ _ hlt
    · have hd := diff15_lt (clean15 (m.paradas_2.getD 0)) st.last_paradas_2 (clean15_lt _)
      have hlt : st.acc_paradas_2 +
          diff15 (clean15 (m.paradas_2.getD 0)) st.last_paradas_2 < U32 := by omega
      exact mod_add_mono _ _ _ hlt
    · have hd := diff16_lt (u16 (m.timer1Hz.getD 0)) st.last_timer1Hz (u16_lt _)
      have hlt : st.acc_timer1Hz +
          diff16 (u16 (m.timer1Hz.getD 0)) st.last_timer1Hz < U32 := by omega
      exact mod_add_mono _ _ _ hlt
    · have hd := diff16_lt (u16 (m.timer1Hz.getD 0)) st.last_timer1Hz (u16_lt _)
      have hlt : st.acc_tiempo_operacion_s +
          diff16 (u16 (m.timer1Hz.getD 0)) st.last_timer1Hz < U32 := by omega
      exact mod_add_mono _ _ _ hlt
  · intro s m st hi hs hb1 hb2 hb3 hb4
    rw [calStep_same s m st hi hs]
    exact ⟨mod_add_mono _ _ _ hb1, mod_add_mono _ _ _ hb2,
           mod_add_mono _ _ _ hb3, mod_add_mono _ _ _ hb4⟩

/-- Witness for claim C1: an initialized empty PH_1 line processes an empty
sample without any accumulator decreasing. -/
theorem claim_C1_accumulators_monotone_witness :
    stC1.initialized = true ∧ stC1.shift = 1 ∧ stC1.acc_pisadas + 65536 ≤ U32 ∧
    stC1.acc_pisadas ≤ (ph1Step 1 {} stC1).acc_pisadas := by
  refine ⟨rfl, rfl, by decide, ?_⟩
  exact (claim_C1_accumulators_monotone.1 1 {} stC1 rfl rfl (by decide) (by decide)
    (by decide)).1

end Celima
